import Mathlib

set_option maxRecDepth 200000

/-!
Shallow embedding of the `next-supabase-clerk-setup` CLI (a Next.js +
Supabase + Clerk scaffolding tool) and proofs about its claims.

The tool's state is the project directory: a set of files (path to
content), a set of directories, and the parsed `package.json`.  Every
operation of the tool is sequential and synchronous, so each TypeScript
function becomes a pure Lean function from filesystem state to
filesystem state; functions whose `try` body can throw are modelled in
the `Except Unit` monad, with their `catch` handler applied by a total
wrapper, exactly as in the source.

String-level operations from the source are modelled on `List Char`:

* `content.includes(pat)`   becomes `strContains`;
* `content.replace(new RegExp("^VAR=.*$", "gm"), "")` blanks every line
  that starts with `VAR=` (the dot does not match a newline, so a line
  matches the anchored pattern exactly when it starts with `VAR=`);
  content is split on the newline character, matching lines are mapped
  to the empty line, and the pieces are rejoined;
* `content.replace(/\n\s*\n/g, "\n")` is modelled by `collapseNl`.
  The regex engine scans left to right; at a newline, the greedy `\s*`
  together with the final `\n` consumes exactly the whitespace up to and
  including the last newline of the maximal whitespace run that starts
  there, and scanning resumes inside the remaining newline-free
  whitespace of the run.  Hence every maximal whitespace run of the
  string is rewritten independently: a run with two or more newlines
  keeps the part before its first newline and the part after its last
  newline with a single newline in between, and any other run is kept
  whole (the pattern needs two newlines to match).  In terms of the
  newline-separated lines of the string, a maximal whitespace run with
  two or more newlines consists of the trailing whitespace of one line,
  one or more whole whitespace-only lines (each contributing its
  separator), and the leading whitespace of a later line; the rewrite
  deletes exactly the whole whitespace-only lines together with one
  separator each, and keeps the flanking lines intact.  Whitespace-only
  lines at the very beginning or end of the content are preceded
  (resp. followed) by no newline, so they are kept.  `collapseNl`
  therefore splits on newlines, drops the whitespace-only lines that
  have both a predecessor and a successor, and rejoins;
* `content.trim()` becomes `jsTrim` (drop whitespace at both ends).
-/

/-- Whitespace characters as matched by the JavaScript `\s` class and
trimmed by `String.prototype.trim` (restricted to the ASCII range, which
is the only range the tool's fixed templates and variable names use). -/
def wsChar (c : Char) : Bool :=
  c = ' ' || c = '\t' || c = '\n' || c = '\r' || c = '\x0b' || c = '\x0c'

/-- JavaScript `haystack.includes(needle)`: substring containment. -/
def strContains (s pat : String) : Bool :=
  decide (pat.data <:+: s.data)

/-- JavaScript `s.startsWith(p)` and the anchored-line regex match
`^p...$` used for environment variables. -/
def strStarts (s pat : String) : Bool :=
  decide (pat.data <+: s.data)

/-- Split a character list at every newline character. -/
def splitNlChars : List Char → List (List Char)
  | [] => [[]]
  | c :: cs =>
    if c = '\n' then
      [] :: splitNlChars cs
    else
      match splitNlChars cs with
      | [] => [[c]]
      | h :: t => (c :: h) :: t

/-- Join character-list lines with newline separators (the inverse of
`splitNlChars` for newline-free lines). -/
def joinNlChars : List (List Char) → List Char
  | [] => []
  | [l] => l
  | l :: ls => l ++ '\n' :: joinNlChars ls

/-- Split a string into its newline-separated lines. -/
def splitLines (s : String) : List String :=
  (splitNlChars s.data).map String.mk

/-- Join lines with newline separators. -/
def joinLines (ls : List String) : String :=
  String.mk (joinNlChars (ls.map String.data))

/-- JavaScript `s.trim()`: drop whitespace from both ends. -/
def jsTrimChars (l : List Char) : List Char :=
  ((l.dropWhile wsChar).reverse.dropWhile wsChar).reverse

/-- JavaScript `s.trim()` on strings. -/
def jsTrim (s : String) : String :=
  String.mk (jsTrimChars s.data)

/-- Keep the last element of a line list, dropping the whitespace-only
lines before it (the continuation of `dropInteriorWs` after the first
line). -/
def dropInteriorWsTail : List (List Char) → List (List Char)
  | [] => []
  | [z] => [z]
  | x :: xs => if x.all wsChar then dropInteriorWsTail xs else x :: dropInteriorWsTail xs

/-- Drop the whitespace-only lines that have both a predecessor and a
successor (see the header comment: this is the line-level effect of the
global replacement `replace(/\n\s*\n/g, "\n")`). -/
def dropInteriorWs : List (List Char) → List (List Char)
  | [] => []
  | [a] => [a]
  | a :: rest => a :: dropInteriorWsTail rest

/-- JavaScript `content.replace(/\n\s*\n/g, "\n")` (see the header
comment for the reduction of the regex replacement to this form). -/
def collapseNl (l : List Char) : List Char :=
  joinNlChars (dropInteriorWs (splitNlChars l))

/-!
Filesystem and project model.

`src/utils/detection.ts` declares

```
export interface ProjectSetup {
  hasSupabase: boolean;
  hasClerk: boolean;
  hasNextAuth: boolean;
  projectType: 'nextjs' | 'nextjs-app' | 'nextjs-pages' | 'unknown';
}
```

The filesystem is the project directory: an association list from path
to file data (`some` content, or `none` for a file that exists but whose
read fails), a list of directories, and the parsed `package.json`
(`none` when the manifest is missing or unparseable, so that
`fs.readJson('package.json')` throws).  Only the dependency names matter
to the tool (`packageJson.dependencies?.[name]` truthiness), so the
manifest is its list of runtime dependency names.  Shelling out to the
package manager is an external-collaborator effect and does not change
the modelled state; it is recorded as an emitted command list where a
claim mentions it.
-/

/-- Parsed `package.json`: the tool only ever looks up names in
`dependencies`. -/
structure PackageJson where
  dependencies : List String
deriving DecidableEq, Repr

/-- The four project classifications of `detectProjectType`. -/
inductive ProjectType where
  | nextjs
  | nextjsApp
  | nextjsPages
  | unknown
deriving DecidableEq, Repr

/-- The `ProjectSetup` interface of `src/utils/detection.ts`. -/
structure ProjectSetup where
  hasSupabase : Bool
  hasClerk : Bool
  hasNextAuth : Bool
  projectType : ProjectType
deriving DecidableEq, Repr

/-- The two services the setup and cleanup helpers take as argument. -/
inductive Service where
  | supabase
  | clerk
deriving DecidableEq, Repr

/-- Project-directory state. -/
structure FS where
  /-- `path -> file data`; the data is `none` when the file exists but
  reading it fails. -/
  files : List (String × Option String)
  /-- directories present (paths under them also count as present). -/
  dirs : List String
  /-- parsed manifest, `none` when `fs.readJson('package.json')` throws. -/
  pkg : Option PackageJson
deriving DecidableEq, Repr

/-- Look up the data stored at a path. -/
def FS.lookupFile (s : FS) (p : String) : Option (Option String) :=
  (s.files.find? (fun e => e.1 = p)).map Prod.snd

/-- `fs.pathExists(p)`: a file or directory at `p`, or anything below
`p`, is present. -/
def FS.pathExists (s : FS) (p : String) : Bool :=
  s.files.any (fun e => e.1 = p || strStarts e.1 (p ++ "/")) ||
    s.dirs.any (fun d => d = p || strStarts d (p ++ "/"))

/-- `fs.readFile(p, 'utf-8')`: succeeds only on a readable file entry. -/
def FS.readFile (s : FS) (p : String) : Except Unit String :=
  match s.lookupFile p with
  | some (some c) => .ok c
  | _ => .error ()

/-- `fs.readJson('package.json')`. -/
def FS.readPkgJson (s : FS) : Except Unit PackageJson :=
  match s.pkg with
  | some pj => .ok pj
  | none => .error ()

/-- `fs.writeFile(p, c)`: create or replace the file at `p`. -/
def FS.writeFile (s : FS) (p : String) (c : String) : FS :=
  { s with files := (p, some c) :: s.files.filter (fun e => !(e.1 = p)) }

/-- `fs.ensureDir(d)`. -/
def FS.ensureDir (s : FS) (d : String) : FS :=
  if s.dirs.contains d then s else { s with dirs := d :: s.dirs }

/-- `fs.remove(p)`: delete the file or directory at `p` and everything
below it. -/
def FS.remove (s : FS) (p : String) : FS :=
  { s with
    files := s.files.filter (fun e => !(e.1 = p || strStarts e.1 (p ++ "/"))),
    dirs := s.dirs.filter (fun d => !(d = p || strStarts d (p ++ "/"))) }

/-!
Detection (`src/utils/detection.ts`).

Each `detectX` function wraps its whole body in `try { ... } catch {
return absent }`; the `...T` functions below are the `try` bodies in the
`Except Unit` monad and the wrappers apply the catch.  Note that
`fs.readJson('package.json')` is the first statement of every body, so a
missing or unparseable manifest makes every detector return the absent
result without probing any marker file.
-/

/-- Marker files probed by `detectSupabase` (in probe order). -/
def supabaseFiles : List String :=
  ["lib/supabase/client.ts", "lib/supabase/server.ts", "lib/supabase/middleware.ts",
   "utils/supabase.ts", "supabase/config.toml"]

/-- The file loop shared by `detectSupabase` and `detectClerk`: probe
each path in order; a path that exists is read (a failing read escapes
to the enclosing catch) and its content is matched against the marker
substrings, the first match winning. -/
def scanFiles (s : FS) (markers : List String) : List String → Except Unit Bool
  | [] => .ok false
  | p :: rest =>
    if s.pathExists p then
      match s.readFile p with
      | .error e => .error e
      | .ok content =>
        if markers.any (fun m => strContains content m) then
          .ok true
        else
          scanFiles s markers rest
    else
      scanFiles s markers rest

/-- Body of `detectProjectType`. -/
def detectProjectTypeT (s : FS) : Except Unit ProjectType := do
  let packageJson ← s.readPkgJson
  if !packageJson.dependencies.contains "next" then
    return .unknown
  else if s.pathExists "app" then
    return .nextjsApp
  else if s.pathExists "pages" then
    return .nextjsPages
  else
    return .nextjs

/-- `detectProjectType`: the catch handler returns `'unknown'`. -/
def detectProjectType (s : FS) : ProjectType :=
  match detectProjectTypeT s with
  | .ok t => t
  | .error _ => .unknown

/-- Body of `detectSupabase`. -/
def detectSupabaseT (s : FS) : Except Unit Bool := do
  let packageJson ← s.readPkgJson
  if packageJson.dependencies.contains "@supabase/supabase-js" ||
      packageJson.dependencies.contains "@supabase/ssr" then
    return true
  match scanFiles s ["@supabase/", "createClient", "supabase"] supabaseFiles with
  | .error e => .error e
  | .ok true => return true
  | .ok false =>
  if s.pathExists ".env.local" then
    match s.readFile ".env.local" with
    | .error e => .error e
    | .ok content =>
      if strContains content "NEXT_PUBLIC_SUPABASE_URL" &&
          strContains content "NEXT_PUBLIC_SUPABASE_ANON_KEY" then
        return true
      else
        return false
  else
    return false

/-- `detectSupabase`: the catch handler returns `false`. -/
def detectSupabase (s : FS) : Bool :=
  match detectSupabaseT s with
  | .ok b => b
  | .error _ => false

/-- Body of `detectClerk`. -/
def detectClerkT (s : FS) : Except Unit Bool := do
  let packageJson ← s.readPkgJson
  if packageJson.dependencies.contains "@clerk/nextjs" ||
      packageJson.dependencies.contains "@clerk/clerk-js" then
    return true
  match scanFiles s ["@clerk/", "ClerkProvider"] ["lib/clerk.ts"] with
  | .error e => .error e
  | .ok true => return true
  | .ok false =>
  match (do
      if s.pathExists "middleware.ts" then
        match s.readFile "middleware.ts" with
        | .error e => .error e
        | .ok content =>
          if strContains content "clerkMiddleware" ||
              strContains content "@clerk/nextjs/server" then
            return true
          else
            return false
      else
        return false : Except Unit Bool) with
  | .error e => .error e
  | .ok true => return true
  | .ok false =>
  if s.pathExists ".env.local" then
    match s.readFile ".env.local" with
    | .error e => .error e
    | .ok content =>
      if strContains content "NEXT_PUBLIC_CLERK_PUBLISHABLE_KEY" &&
          strContains content "CLERK_SECRET_KEY" then
        return true
      else
        return false
  else
    return false

/-- `detectClerk`: the catch handler returns `false`. -/
def detectClerk (s : FS) : Bool :=
  match detectClerkT s with
  | .ok b => b
  | .error _ => false

/-- Marker files probed by `detectNextAuth` (existence only, nothing is
read). -/
def nextAuthFiles : List String :=
  ["pages/api/auth/[...nextauth].ts", "pages/api/auth/[...nextauth].js",
   "app/api/auth/[...nextauth]/route.ts", "lib/auth.ts", "lib/auth.js"]

/-- Body of `detectNextAuth`. -/
def detectNextAuthT (s : FS) : Except Unit Bool := do
  let packageJson ← s.readPkgJson
  if packageJson.dependencies.contains "next-auth" ||
      packageJson.dependencies.contains "@auth/nextjs" then
    return true
  return nextAuthFiles.any (fun p => s.pathExists p)

/-- `detectNextAuth`: the catch handler returns `false`. -/
def detectNextAuth (s : FS) : Bool :=
  match detectNextAuthT s with
  | .ok b => b
  | .error _ => false

/-- `detectExistingSetup`. -/
def detectExistingSetup (s : FS) : ProjectSetup :=
  { projectType := detectProjectType s
    hasSupabase := detectSupabase s
    hasClerk := detectClerk s
    hasNextAuth := detectNextAuth s }

/-!
Template contents emitted by the setup writers, taken verbatim from the
TypeScript template literals (braces, apostrophes, backticks and the
hash sign appear as character escapes).
-/

/-- Template literal of the source, emitted verbatim by a writer. -/
def supabaseClientContent : String :=
  "import \x7b createBrowserClient \x7d from \x27@supabase/ssr\x27\n\nexport function createClient() \x7b\n  return createBrowserClient(\n    process.env.NEXT_PUBLIC_SUPABASE_URL!,\n    process.env.NEXT_PUBLIC_SUPABASE_ANON_KEY!\n  )\n\x7d\n"

/-- Template literal of the source, emitted verbatim by a writer. -/
def supabaseServerContent : String :=
  "import \x7b createServerClient \x7d from \x27@supabase/ssr\x27\nimport \x7b cookies \x7d from \x27next/headers\x27\n\nexport async function createClient() \x7b\n  const cookieStore = await cookies()\n\n  return createServerClient(\n    process.env.NEXT_PUBLIC_SUPABASE_URL!,\n    process.env.NEXT_PUBLIC_SUPABASE_ANON_KEY!,\n    \x7b\n      cookies: \x7b\n        getAll() \x7b\n          return cookieStore.getAll()\n        \x7d,\n        setAll(cookiesToSet) \x7b\n          try \x7b\n            cookiesToSet.forEach((\x7b name, value, options \x7d) =>\n              cookieStore.set(name, value, options)\n            )\n          \x7d catch \x7b\n            // The setAll method was called from a Server Component.\n            // This can be ignored if you have middleware refreshing\n            // user sessions.\n          \x7d\n        \x7d,\n      \x7d,\n    \x7d\n  )\n\x7d\n"

/-- Template literal of the source, emitted verbatim by a writer. -/
def supabaseMiddlewareContent : String :=
  "import \x7b createServerClient \x7d from \x27@supabase/ssr\x27\nimport \x7b NextResponse, type NextRequest \x7d from \x27next/server\x27\n\nexport async function middleware(request: NextRequest) \x7b\n  let supabaseResponse = NextResponse.next(\x7b\n    request,\n  \x7d)\n\n  const supabase = createServerClient(\n    process.env.NEXT_PUBLIC_SUPABASE_URL!,\n    process.env.NEXT_PUBLIC_SUPABASE_ANON_KEY!,\n    \x7b\n      cookies: \x7b\n        getAll() \x7b\n          return request.cookies.getAll()\n        \x7d,\n        setAll(cookiesToSet) \x7b\n          cookiesToSet.forEach((\x7b name, value \x7d) => request.cookies.set(name, value))\n          supabaseResponse = NextResponse.next(\x7b\n            request,\n          \x7d)\n          cookiesToSet.forEach((\x7b name, value, options \x7d) =>\n            supabaseResponse.cookies.set(name, value, options)\n          )\n        \x7d,\n      \x7d,\n    \x7d\n  )\n\n  // IMPORTANT: Avoid writing any logic between createServerClient and\n  // supabase.auth.getUser(). A simple mistake could make it very hard to debug\n  // issues with users being randomly logged out.\n\n  const \x7b\n    data: \x7b user \x7d,\n  \x7d = await supabase.auth.getUser()\n\n  if (\n    !user &&\n    !request.nextUrl.pathname.startsWith(\x27/login\x27) &&\n    !request.nextUrl.pathname.startsWith(\x27/auth\x27)\n  ) \x7b\n    // no user, potentially respond by redirecting the user to the login page\n    const url = request.nextUrl.clone()\n    url.pathname = \x27/login\x27\n    return NextResponse.redirect(url)\n  \x7d\n\n  // IMPORTANT: You *must* return the supabaseResponse object as it is. If you\x27re\n  // creating a new response object with NextResponse.next() make sure to:\n  // 1. Pass the request in it, like so:\n  //    const myNewResponse = NextResponse.next(\x7b request \x7d)\n  // 2. Copy over the cookies, like so:\n  //    myNewResponse.cookies.setAll(supabaseResponse.cookies.getAll())\n  // 3. Change the myNewResponse object instead of the supabaseResponse object\n\n  return supabaseResponse\n\x7d\n\nexport const config = \x7b\n  matcher: [\n    /*\n     * Match all request paths except for the ones starting with:\n     * - _next/static (static files)\n     * - _next/image (image optimization files)\n     * - favicon.ico (favicon file)\n     * Feel free to modify this pattern to include more paths.\n     */\n    \x27/((?!_next/static|_next/image|favicon.ico|.*\\.(?:svg|png|jpg|jpeg|gif|webp)$).*)\x27,\n  ],\n\x7d\n"

/-- Template literal of the source, emitted verbatim by a writer. -/
def supabaseTypesContent : String :=
  "export type Json =\n  | string\n  | number\n  | boolean\n  | null\n  | \x7b [key: string]: Json | undefined \x7d\n  | Json[]\n\nexport interface Database \x7b\n  public: \x7b\n    Tables: \x7b\n      // Add your table types here\n      // Example:\n      // users: \x7b\n      //   Row: \x7b\n      //     id: string\n      //     email: string\n      //     created_at: string\n      //   \x7d\n      //   Insert: \x7b\n      //     id?: string\n      //     email: string\n      //     created_at?: string\n      //   \x7d\n      //   Update: \x7b\n      //     id?: string\n      //     email?: string\n      //     created_at?: string\n      //   \x7d\n      // \x7d\n    \x7d\n    Views: \x7b\n      [_ in never]: never\n    \x7d\n    Functions: \x7b\n      [_ in never]: never\n    \x7d\n    Enums: \x7b\n      [_ in never]: never\n    \x7d\n    CompositeTypes: \x7b\n      [_ in never]: never\n    \x7d\n  \x7d\n\x7d\n"

/-- Template literal of the source, emitted verbatim by a writer. -/
def supabaseMigrationContent : String :=
  "-- Create a table for public profiles\ncreate table if not exists public.profiles (\n  id uuid references auth.users on delete cascade not null primary key,\n  updated_at timestamp with time zone,\n  username text unique,\n  full_name text,\n  avatar_url text,\n  website text,\n\n  constraint username_length check (char_length(username) >= 3)\n);\n\n-- Set up Row Level Security (RLS)\n-- See https://supabase.com/docs/guides/auth/row-level-security for more details.\nalter table public.profiles enable row level security;\n\n-- Create policies\ncreate policy \"Public profiles are viewable by everyone.\" on profiles\n  for select using ( true );\n\ncreate policy \"Users can insert their own profile.\" on profiles\n  for insert with check ( auth.uid() = id );\n\ncreate policy \"Users can update own profile.\" on profiles\n  for update using ( auth.uid() = id );\n\n-- Create a function to handle updating the updated_at column\ncreate or replace function public.handle_updated_at()\nreturns trigger as $$\nbegin\n  new.updated_at = now();\n  return new;\nend;\n$$ language plpgsql;\n\n-- Create a trigger to call the function\ncreate trigger on_profiles_updated\n  before update on public.profiles\n  for each row execute procedure public.handle_updated_at();\n"

/-- Template literal of the source, emitted verbatim by a writer. -/
def supabaseConfigContent : String :=
  "\x23 A string used to distinguish different Supabase projects on the same host. Defaults to the\n\x23 working directory name when running supabase init.\nproject_id = \"next-supabase-clerk\"\n\n[api]\nenabled = true\n\x23 Port to use for the API URL.\nport = 54321\n\x23 Schemas to expose in your API. Tables, views and stored procedures in this schema will get API endpoints.\n\x23 public and storage are always included.\nschemas = [\"public\", \"storage\", \"graphql_public\"]\n\x23 Extra schemas to add to the search_path of every request. public is always included.\nextra_search_path = [\"public\", \"extensions\"]\n\x23 The maximum number of rows returned from a table or view. Limits payload size\n\x23 for accidental or malicious requests.\nmax_rows = 1000\n\n[db]\n\x23 Port to use for the local database URL.\nport = 54322\n\x23 Port used by db diff command to initialize the shadow database.\nshadow_port = 54320\n\x23 The database major version to use. This has to be the same as your remote database\x27s. Run SHOW server_version; on the remote database to check.\nmajor_version = 15\n\n[db.pooler]\nenabled = false\n\x23 Port to use for the local connection pooler.\nport = 54329\n\x23 Specifies when a server connection can be reused by other clients.\n\x23 Configure one of the supported pooler modes: transaction, session.\npool_mode = \"transaction\"\n\x23 How many server connections to allow per user/database pair.\ndefault_pool_size = 20\n\x23 Maximum number of client connections allowed.\nmax_client_conn = 100\n\n[realtime]\nenabled = true\n\x23 Bind realtime via either IPv4 or IPv6. (default: IPv6)\n\x23 ip_version = \"IPv6\"\n\n[studio]\nenabled = true\n\x23 Port to use for Supabase Studio.\nport = 54323\n\x23 External URL of the API server that frontend connects to.\napi_url = \"http://127.0.0.1:54321\"\n\n\x23 Email testing server. Emails sent with the local dev setup are not actually sent - instead, they\n\x23 are monitored, and you can view the emails that would have been sent from the web interface.\n[inbucket]\nenabled = true\n\x23 Port to use for the email testing server web interface.\nport = 54324\n\x23 Uncomment to expose additional ports for testing user applications that send emails.\n\x23 smtp_port = 54325\n\x23 pop3_port = 54326\n\n[storage]\nenabled = true\n\x23 The maximum file size allowed (e.g. \"5MB\", \"500KB\").\nfile_size_limit = \"50MiB\"\n\n[auth]\nenabled = true\n\x23 The base URL of your website. Used as an allow-list for redirects and for constructing URLs used\n\x23 in emails.\nsite_url = \"http://127.0.0.1:3000\"\n\x23 A list of *exact* URLs that auth providers are permitted to redirect to post authentication.\nadditional_redirect_urls = [\"https://127.0.0.1:3000\"]\n\x23 How long tokens are valid for, in seconds. Defaults to 3600 (1 hour), maximum 604800 (1 week).\njwt_expiry = 3600\n\x23 If disabled, the refresh token will never expire.\nenable_refresh_token_rotation = true\n\x23 Allows refresh tokens to be reused after expiry, up to the specified interval in seconds.\n\x23 Requires enable_refresh_token_rotation = true.\nrefresh_token_reuse_interval = 10\n\x23 Allow/disallow new user signups to your project.\nenable_signup = true\n\n[auth.email]\n\x23 Allow/disallow new user signups via email to your project.\nenable_signup = true\n\x23 If enabled, a user will be required to confirm any email change on both the old, and new email addresses. If disabled, only the new email is required to confirm.\ndouble_confirm_changes = true\n\x23 If enabled, users need to confirm their email address before signing in.\nenable_confirmations = false\n\n\x23 Uncomment to customize email template\n\x23 [auth.email.template.invite]\n\x23 subject = \"You have been invited\"\n\x23 content_path = \"./supabase/templates/invite.html\"\n\n[auth.sms]\n\x23 Allow/disallow new user signups via SMS to your project.\nenable_signup = true\n\x23 If enabled, users need to confirm their phone number before signing in.\nenable_confirmations = false\n\n\x23 Configure one of the supported SMS providers: twilio, messagebird, textlocal, vonage.\n[auth.sms.twilio]\nenabled = false\naccount_sid = \"\"\nmessage_service_sid = \"\"\n\x23 DO NOT commit your Twilio auth token to git. Use environment variable substitution instead:\nauth_token = \"env(SUPABASE_AUTH_SMS_TWILIO_AUTH_TOKEN)\"\n\n\x23 Use pre-defined map of phone number to OTP for testing.\n[auth.sms.test_otp]\n\x23 4152127777 = \"123456\"\n\n\x23 Configure one of the supported captcha providers: hcaptcha, turnstile.\n[auth.captcha]\nenabled = false\nprovider = \"hcaptcha\"\nsecret = \"env(SUPABASE_AUTH_CAPTCHA_SECRET)\"\n\n\x23 Use an external OAuth provider. The full list of providers are: apple, azure, bitbucket,\n\x23 discord, facebook, github, gitlab, google, keycloak, linkedin, notion, twitch,\n\x23 twitter, slack, spotify, workos, zoom.\n[auth.external.apple]\nenabled = false\nclient_id = \"\"\nsecret = \"env(SUPABASE_AUTH_EXTERNAL_APPLE_SECRET)\"\n\x23 Overrides the default auth redirectUrl.\nredirect_uri = \"\"\n\x23 Overrides the default auth provider URL. Used to support self-hosted gitlab, single-tenant Azure,\n\x23 or any other third-party OIDC providers.\nurl = \"\"\n\n[edge_runtime]\nenabled = true\n\x23 Configure one of the supported request policies: oneshot, per_worker.\n\x23 oneshot creates a new worker for each request, which is useful for debugging.\n\x23 per_worker reuses workers across requests, which is more efficient.\npolicy = \"oneshot\"\n"

/-- Template literal of the source, emitted verbatim by a writer. -/
def supabaseEnvVars : String :=
  "\n\x23 Supabase Configuration\nNEXT_PUBLIC_SUPABASE_URL=your_supabase_project_url\nNEXT_PUBLIC_SUPABASE_ANON_KEY=your_supabase_anon_key\nSUPABASE_SERVICE_ROLE_KEY=your_supabase_service_role_key\n"

/-- Template literal of the source, emitted verbatim by a writer. -/
def supabaseApiRouteContent : String :=
  "import \x7b createClient \x7d from \x27@/lib/supabase/server\x27\nimport \x7b NextResponse \x7d from \x27next/server\x27\n\nexport async function GET() \x7b\n  const supabase = await createClient()\n  \n  const \x7b data, error \x7d = await supabase\n    .from(\x27profiles\x27)\n    .select(\x27*\x27)\n  \n  if (error) \x7b\n    return NextResponse.json(\x7b error: error.message \x7d, \x7b status: 500 \x7d)\n  \x7d\n  \n  return NextResponse.json(\x7b data \x7d)\n\x7d\n"

/-- Template literal of the source, emitted verbatim by a writer. -/
def profileComponentContent : String :=
  "\x27use client\x27\n\nimport \x7b createClient \x7d from \x27@/lib/supabase/client\x27\nimport \x7b useEffect, useState \x7d from \x27react\x27\n\nexport default function Profile() \x7b\n  const [profile, setProfile] = useState(null)\n  const supabase = createClient()\n\n  useEffect(() => \x7b\n    const getProfile = async () => \x7b\n      const \x7b data: \x7b user \x7d \x7d = await supabase.auth.getUser()\n      if (user) \x7b\n        const \x7b data \x7d = await supabase\n          .from(\x27profiles\x27)\n          .select(\x27*\x27)\n          .eq(\x27id\x27, user.id)\n          .single()\n        setProfile(data)\n      \x7d\n    \x7d\n    getProfile()\n  \x7d, [supabase])\n\n  if (!profile) return <div>Loading...</div>\n\n  return (\n    <div>\n      <h1>Profile</h1>\n      <p>Username: \x7bprofile.username\x7d</p>\n      <p>Full Name: \x7bprofile.full_name\x7d</p>\n    </div>\n  )\n\x7d\n"

/-- Template literal of the source, emitted verbatim by a writer. -/
def connectionTestContent : String :=
  "import \x7b createClient \x7d from \x27@/lib/supabase/client\x27\nimport \x7b useEffect, useState \x7d from \x27react\x27\n\ninterface ConnectionStatus \x7b\n  supabase: \x7b\n    connected: boolean\n    error?: string\n    url?: string\n  \x7d\n  clerk: \x7b\n    connected: boolean\n    error?: string\n    publishableKey?: string\n  \x7d\n\x7d\n\nexport default function ConnectionTest() \x7b\n  const [status, setStatus] = useState<ConnectionStatus>(\x7b\n    supabase: \x7b connected: false \x7d,\n    clerk: \x7b connected: false \x7d\n  \x7d)\n  const [loading, setLoading] = useState(true)\n\n  useEffect(() => \x7b\n    testConnections()\n  \x7d, [])\n\n  const testConnections = async () => \x7b\n    const newStatus: ConnectionStatus = \x7b\n      supabase: \x7b connected: false \x7d,\n      clerk: \x7b connected: false \x7d\n    \x7d\n\n    // Test Supabase connection\n    try \x7b\n      const supabase = createClient()\n      const supabaseUrl = process.env.NEXT_PUBLIC_SUPABASE_URL\n      const supabaseAnonKey = process.env.NEXT_PUBLIC_SUPABASE_ANON_KEY\n\n      if (!supabaseUrl || !supabaseAnonKey) \x7b\n        newStatus.supabase.error = \x27Missing environment variables\x27\n      \x7d else \x7b\n        // Test connection by getting session\n        const \x7b data, error \x7d = await supabase.auth.getSession()\n        if (error) \x7b\n          newStatus.supabase.error = error.message\n        \x7d else \x7b\n          newStatus.supabase.connected = true\n          newStatus.supabase.url = supabaseUrl\n        \x7d\n      \x7d\n    \x7d catch (error) \x7b\n      newStatus.supabase.error = error instanceof Error ? error.message : \x27Unknown error\x27\n    \x7d\n\n    // Test Clerk connection\n    try \x7b\n      const clerkPublishableKey = process.env.NEXT_PUBLIC_CLERK_PUBLISHABLE_KEY\n      const clerkSecretKey = process.env.CLERK_SECRET_KEY\n\n      if (!clerkPublishableKey || !clerkSecretKey) \x7b\n        newStatus.clerk.error = \x27Missing environment variables\x27\n      \x7d else if (!clerkPublishableKey.startsWith(\x27pk_\x27) || !clerkSecretKey.startsWith(\x27sk_\x27)) \x7b\n        newStatus.clerk.error = \x27Invalid key format\x27\n      \x7d else \x7b\n        newStatus.clerk.connected = true\n        newStatus.clerk.publishableKey = clerkPublishableKey\n      \x7d\n    \x7d catch (error) \x7b\n      newStatus.clerk.error = error instanceof Error ? error.message : \x27Unknown error\x27\n    \x7d\n\n    setStatus(newStatus)\n    setLoading(false)\n  \x7d\n\n  if (loading) \x7b\n    return (\n      <div className=\"p-4\">\n        <h2 className=\"text-xl font-bold mb-4\">Connection Test</h2>\n        <div className=\"animate-pulse\">\n          <div className=\"h-4 bg-gray-200 rounded w-3/4 mb-2\"></div>\n          <div className=\"h-4 bg-gray-200 rounded w-1/2\"></div>\n        </div>\n      </div>\n    )\n  \x7d\n\n  return (\n    <div className=\"p-4\">\n      <h2 className=\"text-xl font-bold mb-4\">Connection Test</h2>\n      \n      <div className=\"space-y-4\">\n        \x7b/* Supabase Status */\x7d\n        <div className=\"border rounded-lg p-4\">\n          <div className=\"flex items-center gap-2 mb-2\">\n            <h3 className=\"font-semibold\">Supabase</h3>\n            \x7bstatus.supabase.connected ? (\n              <span className=\"px-2 py-1 bg-green-100 text-green-800 text-xs rounded-full\">\n                \u2705 Connected\n              </span>\n            ) : (\n              <span className=\"px-2 py-1 bg-red-100 text-red-800 text-xs rounded-full\">\n                \u274c Disconnected\n              </span>\n            )\x7d\n          </div>\n          \n          \x7bstatus.supabase.connected ? (\n            <div className=\"text-sm text-gray-600\">\n              <p>URL: \x7bstatus.supabase.url\x7d</p>\n            </div>\n          ) : (\n            <div className=\"text-sm text-red-600\">\n              <p>Error: \x7bstatus.supabase.error\x7d</p>\n            </div>\n          )\x7d\n        </div>\n\n        \x7b/* Clerk Status */\x7d\n        <div className=\"border rounded-lg p-4\">\n          <div className=\"flex items-center gap-2 mb-2\">\n            <h3 className=\"font-semibold\">Clerk</h3>\n            \x7bstatus.clerk.connected ? (\n              <span className=\"px-2 py-1 bg-green-100 text-green-800 text-xs rounded-full\">\n                \u2705 Connected\n              </span>\n            ) : (\n              <span className=\"px-2 py-1 bg-red-100 text-red-800 text-xs rounded-full\">\n                \u274c Disconnected\n              </span>\n            )\x7d\n          </div>\n          \n          \x7bstatus.clerk.connected ? (\n            <div className=\"text-sm text-gray-600\">\n              <p>Publishable Key: \x7bstatus.clerk.publishableKey?.substring(0, 20)\x7d...</p>\n            </div>\n          ) : (\n            <div className=\"text-sm text-red-600\">\n              <p>Error: \x7bstatus.clerk.error\x7d</p>\n            </div>\n          )\x7d\n        </div>\n\n        \x7b/* Test Button */\x7d\n        <button\n          onClick=\x7btestConnections\x7d\n          className=\"px-4 py-2 bg-blue-500 text-white rounded hover:bg-blue-600 transition-colors\"\n        >\n          Test Connections Again\n        </button>\n      </div>\n    </div>\n  )\n\x7d"

/-- Template literal of the source, emitted verbatim by a writer. -/
def demoPageContent : String :=
  "import ConnectionTest from \x27@/components/ConnectionTest\x27\n\nexport default function ConnectionTestPage() \x7b\n  return (\n    <div className=\"min-h-screen bg-gray-50 py-8\">\n      <div className=\"max-w-4xl mx-auto px-4\">\n        <div className=\"bg-white rounded-lg shadow-sm\">\n          <ConnectionTest />\n        </div>\n      </div>\n    </div>\n  )\n\x7d"

/-- Template literal of the source, emitted verbatim by a writer. -/
def enhancedSqlContent : String :=
  "-- =====================================================\n-- Enhanced Supabase + Clerk Setup SQL Script\n-- =====================================================\n-- This script sets up everything needed for a complete\n-- Supabase + Clerk integration including:\n-- - Database schema with RLS\n-- - Clerk Wrapper (FDW) for direct Clerk data access\n-- - Webhook infrastructure\n-- - Authentication policies\n-- =====================================================\n\n-- =====================================================\n-- 1. ENABLE EXTENSIONS\n-- =====================================================\n\n-- Enable required extensions\nCREATE EXTENSION IF NOT EXISTS \"uuid-ossp\";\nCREATE EXTENSION IF NOT EXISTS \"pgcrypto\";\n\n-- Enable Wrappers extension for Clerk FDW\nCREATE EXTENSION IF NOT EXISTS wrappers WITH SCHEMA extensions;\n\n-- Enable Wasm wrapper for HTTP requests\nCREATE EXTENSION IF NOT EXISTS wasm WITH SCHEMA extensions;\n\n-- =====================================================\n-- 2. CREATE SCHEMAS\n-- =====================================================\n\n-- Create clerk schema for foreign tables\nCREATE SCHEMA IF NOT EXISTS clerk;\n\n-- =====================================================\n-- 3. CREATE CORE TABLES\n-- =====================================================\n\n-- Profiles table (extends auth.users)\nCREATE TABLE IF NOT EXISTS public.profiles (\n  id UUID REFERENCES auth.users ON DELETE CASCADE NOT NULL PRIMARY KEY,\n  updated_at TIMESTAMP WITH TIME ZONE DEFAULT NOW(),\n  username TEXT UNIQUE,\n  full_name TEXT,\n  avatar_url TEXT,\n  website TEXT,\n  bio TEXT,\n  location TEXT,\n  phone TEXT,\n  email TEXT,\n  email_verified BOOLEAN DEFAULT FALSE,\n  created_at TIMESTAMP WITH TIME ZONE DEFAULT NOW(),\n  \n  CONSTRAINT username_length CHECK (char_length(username) >= 3),\n  CONSTRAINT username_format CHECK (username ~ \x27^[a-zA-Z0-9_]+$\x27)\n);\n\n-- Tasks table for demo purposes\nCREATE TABLE IF NOT EXISTS public.tasks (\n  id UUID DEFAULT uuid_generate_v4() PRIMARY KEY,\n  title TEXT NOT NULL,\n  description TEXT,\n  completed BOOLEAN DEFAULT FALSE,\n  priority TEXT DEFAULT \x27medium\x27 CHECK (priority IN (\x27low\x27, \x27medium\x27, \x27high\x27)),\n  due_date TIMESTAMP WITH TIME ZONE,\n  user_id UUID REFERENCES auth.users(id) ON DELETE CASCADE NOT NULL,\n  created_at TIMESTAMP WITH TIME ZONE DEFAULT NOW(),\n  updated_at TIMESTAMP WITH TIME ZONE DEFAULT NOW()\n);\n\n-- Organizations table\nCREATE TABLE IF NOT EXISTS public.organizations (\n  id UUID DEFAULT uuid_generate_v4() PRIMARY KEY,\n  name TEXT NOT NULL,\n  slug TEXT UNIQUE NOT NULL,\n  description TEXT,\n  logo_url TEXT,\n  owner_id UUID REFERENCES auth.users(id) ON DELETE CASCADE NOT NULL,\n  created_at TIMESTAMP WITH TIME ZONE DEFAULT NOW(),\n  updated_at TIMESTAMP WITH TIME ZONE DEFAULT NOW()\n);\n\n-- Organization members table\nCREATE TABLE IF NOT EXISTS public.organization_members (\n  id UUID DEFAULT uuid_generate_v4() PRIMARY KEY,\n  organization_id UUID REFERENCES public.organizations(id) ON DELETE CASCADE NOT NULL,\n  user_id UUID REFERENCES auth.users(id) ON DELETE CASCADE NOT NULL,\n  role TEXT DEFAULT \x27member\x27 CHECK (role IN (\x27owner\x27, \x27admin\x27, \x27member\x27)),\n  joined_at TIMESTAMP WITH TIME ZONE DEFAULT NOW(),\n  \n  UNIQUE(organization_id, user_id)\n);\n\n-- Webhook events table\nCREATE TABLE IF NOT EXISTS public.webhook_events (\n  id UUID DEFAULT uuid_generate_v4() PRIMARY KEY,\n  event_type TEXT NOT NULL,\n  event_data JSONB NOT NULL,\n  source TEXT NOT NULL, -- \x27clerk\x27 or \x27supabase\x27\n  processed BOOLEAN DEFAULT FALSE,\n  created_at TIMESTAMP WITH TIME ZONE DEFAULT NOW()\n);\n\n-- =====================================================\n-- 4. ENABLE ROW LEVEL SECURITY (RLS)\n-- =====================================================\n\n-- Enable RLS on all tables\nALTER TABLE public.profiles ENABLE ROW LEVEL SECURITY;\nALTER TABLE public.tasks ENABLE ROW LEVEL SECURITY;\nALTER TABLE public.organizations ENABLE ROW LEVEL SECURITY;\nALTER TABLE public.organization_members ENABLE ROW LEVEL SECURITY;\nALTER TABLE public.webhook_events ENABLE ROW LEVEL SECURITY;\n\n-- =====================================================\n-- 5. CREATE RLS POLICIES\n-- =====================================================\n\n-- Profiles policies\nCREATE POLICY \"Public profiles are viewable by everyone\" ON public.profiles\n  FOR SELECT USING (true);\n\nCREATE POLICY \"Users can insert their own profile\" ON public.profiles\n  FOR INSERT WITH CHECK (auth.uid() = id);\n\nCREATE POLICY \"Users can update own profile\" ON public.profiles\n  FOR UPDATE USING (auth.uid() = id);\n\nCREATE POLICY \"Users can delete own profile\" ON public.profiles\n  FOR DELETE USING (auth.uid() = id);\n\n-- Tasks policies\nCREATE POLICY \"Users can view own tasks\" ON public.tasks\n  FOR SELECT USING (auth.uid() = user_id);\n\nCREATE POLICY \"Users can insert own tasks\" ON public.tasks\n  FOR INSERT WITH CHECK (auth.uid() = user_id);\n\nCREATE POLICY \"Users can update own tasks\" ON public.tasks\n  FOR UPDATE USING (auth.uid() = user_id);\n\nCREATE POLICY \"Users can delete own tasks\" ON public.tasks\n  FOR DELETE USING (auth.uid() = user_id);\n\n-- Organizations policies\nCREATE POLICY \"Users can view organizations they belong to\" ON public.organizations\n  FOR SELECT USING (\n    auth.uid() = owner_id OR \n    auth.uid() IN (\n      SELECT user_id FROM public.organization_members \n      WHERE organization_id = organizations.id\n    )\n  );\n\nCREATE POLICY \"Users can create organizations\" ON public.organizations\n  FOR INSERT WITH CHECK (auth.uid() = owner_id);\n\nCREATE POLICY \"Owners can update their organizations\" ON public.organizations\n  FOR UPDATE USING (auth.uid() = owner_id);\n\nCREATE POLICY \"Owners can delete their organizations\" ON public.organizations\n  FOR DELETE USING (auth.uid() = owner_id);\n\n-- Organization members policies\nCREATE POLICY \"Users can view members of their organizations\" ON public.organization_members\n  FOR SELECT USING (\n    auth.uid() = user_id OR \n    auth.uid() IN (\n      SELECT owner_id FROM public.organizations \n      WHERE id = organization_id\n    )\n  );\n\nCREATE POLICY \"Users can join organizations\" ON public.organization_members\n  FOR INSERT WITH CHECK (auth.uid() = user_id);\n\nCREATE POLICY \"Users can leave organizations\" ON public.organization_members\n  FOR DELETE USING (auth.uid() = user_id);\n\n-- Webhook events policies (admin only)\nCREATE POLICY \"Only service role can access webhook events\" ON public.webhook_events\n  FOR ALL USING (auth.role() = \x27service_role\x27);\n\n-- =====================================================\n-- 6. CREATE INDEXES\n-- =====================================================\n\n-- Profiles indexes\nCREATE INDEX IF NOT EXISTS profiles_username_idx ON public.profiles(username);\nCREATE INDEX IF NOT EXISTS profiles_email_idx ON public.profiles(email);\n\n-- Tasks indexes\nCREATE INDEX IF NOT EXISTS tasks_user_id_idx ON public.tasks(user_id);\nCREATE INDEX IF NOT EXISTS tasks_completed_idx ON public.tasks(completed);\nCREATE INDEX IF NOT EXISTS tasks_due_date_idx ON public.tasks(due_date);\n\n-- Organizations indexes\nCREATE INDEX IF NOT EXISTS organizations_owner_id_idx ON public.organizations(owner_id);\nCREATE INDEX IF NOT EXISTS organizations_slug_idx ON public.organizations(slug);\n\n-- Organization members indexes\nCREATE INDEX IF NOT EXISTS organization_members_org_id_idx ON public.organization_members(organization_id);\nCREATE INDEX IF NOT EXISTS organization_members_user_id_idx ON public.organization_members(user_id);\n\n-- Webhook events indexes\nCREATE INDEX IF NOT EXISTS webhook_events_source_idx ON public.webhook_events(source);\nCREATE INDEX IF NOT EXISTS webhook_events_processed_idx ON public.webhook_events(processed);\nCREATE INDEX IF NOT EXISTS webhook_events_created_at_idx ON public.webhook_events(created_at);\n\n-- =====================================================\n-- 7. CREATE FUNCTIONS\n-- =====================================================\n\n-- Function to handle updated_at timestamps\nCREATE OR REPLACE FUNCTION public.handle_updated_at()\nRETURNS TRIGGER AS $$\nBEGIN\n  NEW.updated_at = NOW();\n  RETURN NEW;\nEND;\n$$ LANGUAGE plpgsql;\n\n-- Function to create profile on user signup\nCREATE OR REPLACE FUNCTION public.handle_new_user()\nRETURNS TRIGGER AS $$\nBEGIN\n  INSERT INTO public.profiles (id, full_name, avatar_url, email)\n  VALUES (\n    NEW.id,\n    NEW.raw_user_meta_data->>\x27full_name\x27,\n    NEW.raw_user_meta_data->>\x27avatar_url\x27,\n    NEW.email\n  );\n  RETURN NEW;\nEND;\n$$ LANGUAGE plpgsql SECURITY DEFINER;\n\n-- Function to process webhook events\nCREATE OR REPLACE FUNCTION public.process_webhook_event()\nRETURNS TRIGGER AS $$\nBEGIN\n  -- Process Clerk webhook events\n  IF NEW.source = \x27clerk\x27 THEN\n    CASE NEW.event_type\n      WHEN \x27user.created\x27 THEN\n        -- Handle user creation\n        INSERT INTO public.profiles (id, full_name, avatar_url, email)\n        VALUES (\n          (NEW.event_data->>\x27id\x27)::UUID,\n          NEW.event_data->>\x27first_name\x27 || \x27 \x27 || NEW.event_data->>\x27last_name\x27,\n          NEW.event_data->>\x27image_url\x27,\n          NEW.event_data->>\x27email_addresses\x27->0->>\x27email_address\x27\n        )\n        ON CONFLICT (id) DO UPDATE SET\n          full_name = EXCLUDED.full_name,\n          avatar_url = EXCLUDED.avatar_url,\n          email = EXCLUDED.email,\n          updated_at = NOW();\n        \n      WHEN \x27user.updated\x27 THEN\n        -- Handle user updates\n        UPDATE public.profiles SET\n          full_name = NEW.event_data->>\x27first_name\x27 || \x27 \x27 || NEW.event_data->>\x27last_name\x27,\n          avatar_url = NEW.event_data->>\x27image_url\x27,\n          email = NEW.event_data->>\x27email_addresses\x27->0->>\x27email_address\x27,\n          updated_at = NOW()\n        WHERE id = (NEW.event_data->>\x27id\x27)::UUID;\n        \n      WHEN \x27user.deleted\x27 THEN\n        -- Handle user deletion\n        DELETE FROM public.profiles WHERE id = (NEW.event_data->>\x27id\x27)::UUID;\n    END CASE;\n  END IF;\n  \n  -- Mark as processed\n  NEW.processed = TRUE;\n  RETURN NEW;\nEND;\n$$ LANGUAGE plpgsql SECURITY DEFINER;\n\n-- =====================================================\n-- 8. CREATE TRIGGERS\n-- =====================================================\n\n-- Trigger for updated_at on profiles\nCREATE TRIGGER profiles_updated_at\n  BEFORE UPDATE ON public.profiles\n  FOR EACH ROW EXECUTE FUNCTION public.handle_updated_at();\n\n-- Trigger for updated_at on tasks\nCREATE TRIGGER tasks_updated_at\n  BEFORE UPDATE ON public.tasks\n  FOR EACH ROW EXECUTE FUNCTION public.handle_updated_at();\n\n-- Trigger for updated_at on organizations\nCREATE TRIGGER organizations_updated_at\n  BEFORE UPDATE ON public.organizations\n  FOR EACH ROW EXECUTE FUNCTION public.handle_updated_at();\n\n-- Trigger for new user signup\nCREATE TRIGGER on_auth_user_created\n  AFTER INSERT ON auth.users\n  FOR EACH ROW EXECUTE FUNCTION public.handle_new_user();\n\n-- Trigger for webhook event processing\nCREATE TRIGGER process_webhook_events\n  BEFORE INSERT ON public.webhook_events\n  FOR EACH ROW EXECUTE FUNCTION public.process_webhook_event();\n\n-- =====================================================\n-- 9. CLERK WRAPPER SETUP (FDW) - OPTIONAL\n-- =====================================================\n\n-- Note: The following section requires manual configuration\n-- You need to replace \x27YOUR_CLERK_SECRET_KEY\x27 with your actual Clerk secret key\n\n-- Create foreign data wrapper for Clerk API\n-- This will be created when you run the enhanced setup with proper credentials\n\n-- Example of what the wrapper setup would look like:\n/*\n-- Create wasm foreign data wrapper\nCREATE FOREIGN DATA WRAPPER clerk_wrapper\n  HANDLER wasm_fdw_handler\n  VALIDATOR wasm_fdw_validator;\n\n-- Create server for Clerk API\nCREATE SERVER clerk_server\n  FOREIGN DATA WRAPPER clerk_wrapper\n  OPTIONS (\n    api_key \x27YOUR_CLERK_SECRET_KEY\x27,\n    base_url \x27https://api.clerk.com/v1\x27\n  );\n\n-- Create foreign tables for Clerk data\nCREATE FOREIGN TABLE clerk.users (\n  id TEXT,\n  first_name TEXT,\n  last_name TEXT,\n  email_addresses JSONB,\n  phone_numbers JSONB,\n  image_url TEXT,\n  created_at BIGINT,\n  updated_at BIGINT\n) SERVER clerk_server\nOPTIONS (\n  object \x27users\x27\n);\n\nCREATE FOREIGN TABLE clerk.organizations (\n  id TEXT,\n  name TEXT,\n  slug TEXT,\n  members_count INTEGER,\n  created_at BIGINT,\n  updated_at BIGINT\n) SERVER clerk_server\nOPTIONS (\n  object \x27organizations\x27\n);\n*/\n\n-- =====================================================\n-- 10. GRANT PERMISSIONS\n-- =====================================================\n\n-- Grant necessary permissions\nGRANT USAGE ON SCHEMA public TO authenticated;\nGRANT USAGE ON SCHEMA public TO anon;\nGRANT USAGE ON SCHEMA clerk TO authenticated;\nGRANT USAGE ON SCHEMA clerk TO anon;\n\n-- Grant table permissions\nGRANT SELECT, INSERT, UPDATE, DELETE ON public.profiles TO authenticated;\nGRANT SELECT, INSERT, UPDATE, DELETE ON public.tasks TO authenticated;\nGRANT SELECT, INSERT, UPDATE, DELETE ON public.organizations TO authenticated;\nGRANT SELECT, INSERT, UPDATE, DELETE ON public.organization_members TO authenticated;\nGRANT SELECT ON public.webhook_events TO authenticated;\n\n-- Grant sequence permissions\nGRANT USAGE, SELECT ON ALL SEQUENCES IN SCHEMA public TO authenticated;\n\n-- =====================================================\n-- SETUP COMPLETE\n-- =====================================================\n\n-- Display completion message\nDO $$\nBEGIN\n  RAISE NOTICE \x27=====================================================\x27;\n  RAISE NOTICE \x27Enhanced Supabase + Clerk Setup Complete!\x27;\n  RAISE NOTICE \x27=====================================================\x27;\n  RAISE NOTICE \x27What was created:\x27;\n  RAISE NOTICE \x27- Database schema with RLS policies\x27;\n  RAISE NOTICE \x27- Profiles, tasks, organizations tables\x27;\n  RAISE NOTICE \x27- Webhook events table\x27;\n  RAISE NOTICE \x27- Authentication triggers and functions\x27;\n  RAISE NOTICE \x27- Indexes for performance\x27;\n  RAISE NOTICE \x27=====================================================\x27;\n  RAISE NOTICE \x27Next steps:\x27;\n  RAISE NOTICE \x271. Configure Clerk Dashboard integration\x27;\n  RAISE NOTICE \x272. Set up webhook endpoints\x27;\n  RAISE NOTICE \x273. Test authentication flows\x27;\n  RAISE NOTICE \x274. Query Clerk data using foreign tables\x27;\n  RAISE NOTICE \x27=====================================================\x27;\nEND $$;"

/-- Template literal of the source, emitted verbatim by a writer. -/
def supabaseWebhookContent : String :=
  "import \x7b NextRequest, NextResponse \x7d from \x27next/server\x27\nimport \x7b createClient \x7d from \x27@/lib/supabase/server\x27\n\nexport async function POST(request: NextRequest) \x7b\n  try \x7b\n    const body = await request.json()\n    \n    // Verify webhook signature (optional but recommended)\n    const signature = request.headers.get(\x27x-supabase-signature\x27)\n    if (!signature) \x7b\n      return NextResponse.json(\x7b error: \x27Missing signature\x27 \x7d, \x7b status: 401 \x7d)\n    \x7d\n\n    // Process different event types\n    switch (body.type) \x7b\n      case \x27INSERT\x27:\n        await handleInsertEvent(body)\n        break\n      case \x27UPDATE\x27:\n        await handleUpdateEvent(body)\n        break\n      case \x27DELETE\x27:\n        await handleDeleteEvent(body)\n        break\n      default:\n        console.log(\x27Unknown event type:\x27, body.type)\n    \x7d\n\n    return NextResponse.json(\x7b success: true \x7d)\n  \x7d catch (error) \x7b\n    console.error(\x27Webhook error:\x27, error)\n    return NextResponse.json(\x7b error: \x27Internal server error\x27 \x7d, \x7b status: 500 \x7d)\n  \x7d\n\x7d\n\nasync function handleInsertEvent(data: any) \x7b\n  console.log(\x27Insert event:\x27, data)\n  // Handle insert events (e.g., new user registration)\n  // Example: Send welcome email, create user profile, etc.\n\x7d\n\nasync function handleUpdateEvent(data: any) \x7b\n  console.log(\x27Update event:\x27, data)\n  // Handle update events (e.g., profile updates)\n  // Example: Update search index, send notifications, etc.\n\x7d\n\nasync function handleDeleteEvent(data: any) \x7b\n  console.log(\x27Delete event:\x27, data)\n  // Handle delete events (e.g., user deletion)\n  // Example: Clean up related data, send confirmation, etc.\n\x7d\n"

/-- Template literal of the source, emitted verbatim by a writer. -/
def clerkWebhookContent : String :=
  "import \x7b NextRequest, NextResponse \x7d from \x27next/server\x27\nimport \x7b Webhook \x7d from \x27svix\x27\nimport \x7b headers \x7d from \x27next/headers\x27\nimport \x7b createClient \x7d from \x27@supabase/supabase-js\x27\n// Initialize Supabase client with service role key for server-side operations\nconst supabase = createClient(\n  process.env.NEXT_PUBLIC_SUPABASE_URL!,\n  process.env.SUPABASE_SERVICE_ROLE_KEY!\n)\n\nexport async function POST(request: NextRequest) \x7b\n  try \x7b\n    const WEBHOOK_SECRET = process.env.CLERK_WEBHOOK_SECRET\n\n    if (!WEBHOOK_SECRET) \x7b\n      throw new Error(\x27Please add CLERK_WEBHOOK_SECRET to .env.local\x27)\n    \x7d\n\n    // Get the headers\n    const headerPayload = await headers()\n    const svix_id = headerPayload.get(\x27svix-id\x27)\n    const svix_timestamp = headerPayload.get(\x27svix-timestamp\x27)\n    const svix_signature = headerPayload.get(\x27svix-signature\x27)\n\n    // If there are no headers, error out\n    if (!svix_id || !svix_timestamp || !svix_signature) \x7b\n      return new Response(\x27Error occured -- no svix headers\x27, \x7b\n        status: 400,\n      \x7d)\n    \x7d\n\n    // Get the body\n    const payload = await request.text()\n    const body = JSON.parse(payload)\n\n    // Create a new Svix instance with your secret.\n    const wh = new Webhook(WEBHOOK_SECRET)\n\n    let evt: any\n\n    // Verify the payload with the headers\n    try \x7b\n      evt = wh.verify(payload, \x7b\n        \x27svix-id\x27: svix_id,\n        \x27svix-timestamp\x27: svix_timestamp,\n        \x27svix-signature\x27: svix_signature,\n      \x7d)\n    \x7d catch (err) \x7b\n      console.error(\x27Error verifying webhook:\x27, err)\n      return new Response(\x27Error occured\x27, \x7b\n        status: 400,\n      \x7d)\n    \x7d\n\n    // Handle the webhook\n    const eventType = evt.type\n\n    switch (eventType) \x7b\n      case \x27user.created\x27:\n        await handleUserCreated(evt.data)\n        break\n      case \x27user.updated\x27:\n        await handleUserUpdated(evt.data)\n        break\n      case \x27user.deleted\x27:\n        await handleUserDeleted(evt.data)\n        break\n      case \x27session.created\x27:\n        await handleSessionCreated(evt.data)\n        break\n      case \x27session.ended\x27:\n        await handleSessionEnded(evt.data)\n        break\n      default:\n        console.log(\x27Unhandled event type:\x27, eventType)\n    \x7d\n\n    return NextResponse.json(\x7b success: true \x7d)\n  \x7d catch (error) \x7b\n    console.error(\x27Webhook error:\x27, error)\n    return NextResponse.json(\x7b error: \x27Internal server error\x27 \x7d, \x7b status: 500 \x7d)\n  \x7d\n\x7d\n\nasync function handleUserCreated(data: any) \x7b\n  console.log(\x27User created:\x27, data)\n  const \x7b id, email_addresses, first_name, last_name, image_url \x7d = data\n\n  try \x7b\n    // Update user profile in Supabase\n    const \x7b error \x7d = await supabase\n      .from(\x27profiles\x27)\n      .update(\x7b\n        email: email_addresses[0]?.email_address || \x27\x27,\n        first_name: first_name || \x27\x27,\n        last_name: last_name || \x27\x27,\n        image_url: image_url || \x27\x27,\n      \x7d)\n      .eq(\x27id\x27, id)\n\n    if (error) \x7b\n      console.error(\x27Error updating user profile:\x27, error)\n      return new Response(\x27Error updating user profile\x27, \x7b status: 500 \x7d)\n    \x7d\n\n    console.log(\x27User profile updated successfully:\x27, id)\n  \x7d catch (error) \x7b\n    console.error(\x27Error processing user.updated webhook:\x27, error)\n    return new Response(\x27Error processing webhook\x27, \x7b status: 500 \x7d)\n  \x7d\n\x7d\n\nasync function handleUserUpdated(data: any) \x7b\n  console.log(\x27User updated:\x27, data)\n  const \x7b id, email_addresses, first_name, last_name, image_url \x7d = data\n\n  try \x7b\n    // Update user profile in Supabase\n    const \x7b error \x7d = await supabase\n      .from(\x27profiles\x27)\n      .update(\x7b\n        email: email_addresses[0]?.email_address || \x27\x27,\n        first_name: first_name || \x27\x27,\n        last_name: last_name || \x27\x27,\n        image_url: image_url || \x27\x27,\n      \x7d)\n      .eq(\x27id\x27, id)\n\n    if (error) \x7b\n      console.error(\x27Error updating user profile:\x27, error)\n      return new Response(\x27Error updating user profile\x27, \x7b status: 500 \x7d)\n    \x7d\n\n    console.log(\x27User profile updated successfully:\x27, id)\n  \x7d catch (error) \x7b\n    console.error(\x27Error processing user.updated webhook:\x27, error)\n    return new Response(\x27Error processing webhook\x27, \x7b status: 500 \x7d)\n  \x7d\n\x7d\n\nasync function handleUserDeleted(data: any) \x7b\n  console.log(\x27User deleted:\x27, data)\n  const \x7b id \x7d = data\n\n  try \x7b\n    // Delete user profile from Supabase (CASCADE will handle related tasks)\n    const \x7b error \x7d = await supabase\n      .from(\x27profiles\x27)\n      .delete()\n      .eq(\x27id\x27, id)\n\n    if (error) \x7b\n      console.error(\x27Error deleting user profile:\x27, error)\n      return new Response(\x27Error deleting user profile\x27, \x7b status: 500 \x7d)\n    \x7d\n\n    console.log(\x27User profile deleted successfully:\x27, id)\n  \x7d catch (error) \x7b\n    console.error(\x27Error processing user.deleted webhook:\x27, error)\n    return new Response(\x27Error processing webhook\x27, \x7b status: 500 \x7d)\n  \x7d\n\x7d\n\nasync function handleSessionCreated(data: any) \x7b\n  console.log(\x27Session created:\x27, data)\n  // Handle session creation (e.g., log user activity)\n  // Example: Track login events, update last seen, etc.\n\x7d\n\nasync function handleSessionEnded(data: any) \x7b\n  console.log(\x27Session ended:\x27, data)\n  // Handle session end (e.g., log logout events)\n  // Example: Track logout events, cleanup session data, etc.\n\x7d\n\n"

/-- Template literal of the source, emitted verbatim by a writer. -/
def webhookUtilsContent : String :=
  "import crypto from \x27crypto\x27\n\nexport function verifySupabaseWebhook(\n  payload: string,\n  signature: string,\n  secret: string\n): boolean \x7b\n  try \x7b\n    const expectedSignature = crypto\n      .createHmac(\x27sha256\x27, secret)\n      .update(payload)\n      .digest(\x27hex\x27)\n    \n    return crypto.timingSafeEqual(\n      Buffer.from(signature, \x27hex\x27),\n      Buffer.from(expectedSignature, \x27hex\x27)\n    )\n  \x7d catch (error) \x7b\n    console.error(\x27Error verifying Supabase webhook:\x27, error)\n    return false\n  \x7d\n\x7d\n\nexport function verifyClerkWebhook(\n  payload: string,\n  signature: string,\n  secret: string\n): boolean \x7b\n  try \x7b\n    const expectedSignature = crypto\n      .createHmac(\x27sha256\x27, secret)\n      .update(payload)\n      .digest(\x27hex\x27)\n    \n    return crypto.timingSafeEqual(\n      Buffer.from(signature, \x27hex\x27),\n      Buffer.from(expectedSignature, \x27hex\x27)\n    )\n  \x7d catch (error) \x7b\n    console.error(\x27Error verifying Clerk webhook:\x27, error)\n    return false\n  \x7d\n\x7d\n\nexport function getWebhookUrl(service: \x27supabase\x27 | \x27clerk\x27, baseUrl?: string): string \x7b\n  const url = baseUrl || process.env.NEXT_PUBLIC_APP_URL || \x27http://localhost:3000\x27\n  return \x60$\x7burl\x7d/api/webhooks/$\x7bservice\x7d\x60\n\x7d\n"

/-- Template literal of the source, emitted verbatim by a writer. -/
def clerkConfigContent : String :=
  "import \x7b ClerkProvider \x7d from \x27@clerk/nextjs\x27\nimport React from \x27react\x27\n\nexport function ClerkProviderWrapper(\x7b children \x7d: \x7b children: React.ReactNode \x7d): React.JSX.Element \x7b\n  return (\n    <ClerkProvider\n      appearance=\x7b\x7b\n        elements: \x7b\n          formButtonPrimary: \x27bg-slate-500 hover:bg-slate-400 text-sm normal-case\x27,\n        \x7d,\n      \x7d\x7d\n    >\n      \x7bchildren\x7d\n    </ClerkProvider>\n  )\n\x7d\n"

/-- Template literal of the source, emitted verbatim by a writer. -/
def clerkMiddlewareContent : String :=
  "import \x7b clerkMiddleware, createRouteMatcher \x7d from \x27@clerk/nextjs/server\x27\n\nconst isProtectedRoute = createRouteMatcher([\n  \x27/dashboard(.*)\x27,\n  \x27/profile(.*)\x27,\n  \x27/admin(.*)\x27,\n])\n\nexport default clerkMiddleware(async (auth, req) => \x7b\n  if (isProtectedRoute(req)) \x7b\n    const \x7b userId, redirectToSignIn \x7d = await auth()\n    if (!userId) return redirectToSignIn()\n  \x7d\n\x7d)\n\nexport const config = \x7b\n  matcher: [\n    // Skip Next.js internals and all static files, unless found in search params\n    \x27/((?!_next|[^?]*\\.(?:html?|css|js(?!on)|jpe?g|webp|png|gif|svg|ttf|woff2?|ico|csv|docx?|xlsx?|zip|webmanifest)).*)\x27,\n    // Always run for API routes\n    \x27/(api|trpc)(.*)\x27,\n  ],\n\x7d\n"

/-- Template literal of the source, emitted verbatim by a writer. -/
def signInContent : String :=
  "import \x7b SignIn \x7d from \x27@clerk/nextjs\x27\n\nexport default function Page() \x7b\n  return (\n    <div className=\"flex min-h-screen items-center justify-center\">\n      <SignIn />\n    </div>\n  )\n\x7d\n"

/-- Template literal of the source, emitted verbatim by a writer. -/
def signUpContent : String :=
  "import \x7b SignUp \x7d from \x27@clerk/nextjs\x27\n\nexport default function Page() \x7b\n  return (\n    <div className=\"flex min-h-screen items-center justify-center\">\n      <SignUp />\n    </div>\n  )\n\x7d\n"

/-- Template literal of the source, emitted verbatim by a writer. -/
def providerContent : String :=
  "import \x7b ClerkProviderWrapper \x7d from \x27@/lib/clerk\x27\n\nexport default function RootLayout(\x7b\n  children,\n\x7d: \x7b\n  children: React.ReactNode\n\x7d) \x7b\n  return (\n    <html lang=\"en\">\n      <body>\n        <ClerkProviderWrapper>\n          \x7bchildren\x7d\n        </ClerkProviderWrapper>\n      </body>\n    </html>\n  )\n\x7d\n"

/-- Template literal of the source, emitted verbatim by a writer. -/
def pagesAppContent : String :=
  "import \x7b ClerkProviderWrapper \x7d from \x27@/lib/clerk\x27\nimport type \x7b AppProps \x7d from \x27next/app\x27\n\nexport default function App(\x7b Component, pageProps \x7d: AppProps) \x7b\n  return (\n    <ClerkProviderWrapper>\n      <Component \x7b...pageProps\x7d />\n    </ClerkProviderWrapper>\n  )\n\x7d\n"

/-- Template literal of the source, emitted verbatim by a writer. -/
def clerkEnvVars : String :=
  "\n\x23 Clerk Configuration\nNEXT_PUBLIC_CLERK_PUBLISHABLE_KEY=your_clerk_publishable_key\nCLERK_SECRET_KEY=your_clerk_secret_key\nNEXT_PUBLIC_CLERK_SIGN_IN_URL=/sign-in\nNEXT_PUBLIC_CLERK_SIGN_UP_URL=/sign-up\nNEXT_PUBLIC_CLERK_AFTER_SIGN_IN_URL=/dashboard\nNEXT_PUBLIC_CLERK_AFTER_SIGN_UP_URL=/dashboard\n"

/-- Template literal of the source, emitted verbatim by a writer. -/
def dashboardContent : String :=
  "\x27use client\x27\n\nimport \x7b UserButton, useUser \x7d from \x27@clerk/nextjs\x27\nimport \x7b SignInButton, SignUpButton \x7d from \x27@clerk/nextjs\x27\n\nexport default function Dashboard() \x7b\n  const \x7b isSignedIn, user, isLoaded \x7d = useUser()\n\n  if (!isLoaded) \x7b\n    return <div>Loading...</div>\n  \x7d\n\n  if (!isSignedIn) \x7b\n    return (\n      <div className=\"flex min-h-screen items-center justify-center\">\n        <div className=\"text-center\">\n          <h1 className=\"text-2xl font-bold mb-4\">Welcome to Dashboard</h1>\n          <p className=\"mb-4\">Please sign in to continue</p>\n          <div className=\"space-x-4\">\n            <SignInButton mode=\"modal\">\n              <button className=\"bg-blue-500 hover:bg-blue-700 text-white font-bold py-2 px-4 rounded\">\n                Sign In\n              </button>\n            </SignInButton>\n            <SignUpButton mode=\"modal\">\n              <button className=\"bg-green-500 hover:bg-green-700 text-white font-bold py-2 px-4 rounded\">\n                Sign Up\n              </button>\n            </SignUpButton>\n          </div>\n        </div>\n      </div>\n    )\n  \x7d\n\n  return (\n    <div className=\"min-h-screen bg-gray-100\">\n      <nav className=\"bg-white shadow\">\n        <div className=\"max-w-7xl mx-auto px-4 sm:px-6 lg:px-8\">\n          <div className=\"flex justify-between h-16\">\n            <div className=\"flex items-center\">\n              <h1 className=\"text-xl font-semibold\">Dashboard</h1>\n            </div>\n            <div className=\"flex items-center\">\n              <UserButton afterSignOutUrl=\"/\" />\n            </div>\n          </div>\n        </div>\n      </nav>\n      \n      <main className=\"max-w-7xl mx-auto py-6 sm:px-6 lg:px-8\">\n        <div className=\"px-4 py-6 sm:px-0\">\n          <div className=\"border-4 border-dashed border-gray-200 rounded-lg h-96 flex items-center justify-center\">\n            <div className=\"text-center\">\n              <h2 className=\"text-2xl font-bold text-gray-900 mb-4\">\n                Welcome, \x7buser.firstName || user.emailAddresses[0].emailAddress\x7d!\n              </h2>\n              <p className=\"text-gray-600\">\n                You are successfully signed in with Clerk.\n              </p>\n            </div>\n          </div>\n        </div>\n      </main>\n    </div>\n  )\n\x7d\n"

/-- Template literal of the source, emitted verbatim by a writer. -/
def protectedApiRouteContent : String :=
  "import \x7b auth \x7d from \x27@clerk/nextjs/server\x27\nimport \x7b NextResponse \x7d from \x27next/server\x27\n\nexport async function GET() \x7b\n  const \x7b userId \x7d = await auth()\n  \n  if (!userId) \x7b\n    return NextResponse.json(\x7b error: \x27Unauthorized\x27 \x7d, \x7b status: 401 \x7d)\n  \x7d\n  \n  return NextResponse.json(\x7b \n    message: \x27Hello from protected route!\x27,\n    userId \n  \x7d)\n\x7d\n"


/-!
String replacement helpers for the layout-patching code of
`src/setup/clerk.ts`.  `jsReplaceAll` is JavaScript
`s.replace(/literal/g, rep)` for a literal pattern: scanning left to
right, each occurrence is replaced and scanning resumes after the
replacement.  `replaceFirst` replaces only the first occurrence
(JavaScript `s.replace('literal', rep)`).  No claim depends on these
transformations; they are embedded so the Clerk setup pipeline is
complete.
-/

/-- Global literal replacement on character lists. -/
def jsReplaceAllChars (pat rep : List Char) : List Char → List Char
  | [] => []
  | c :: rest =>
    if pat ≠ [] ∧ pat.isPrefixOf (c :: rest) then
      rep ++ jsReplaceAllChars pat rep ((c :: rest).drop pat.length)
    else
      c :: jsReplaceAllChars pat rep rest
termination_by l => l.length
decreasing_by
  · rename_i h
    have hp : pat.length ≥ 1 := by
      cases pat with
      | nil => exact absurd rfl h.1
      | cons a t => simp
    simp only [List.length_drop, List.length_cons]
    omega
  · simp

/-- Global literal replacement on strings. -/
def jsReplaceAll (s pat rep : String) : String :=
  String.mk (jsReplaceAllChars pat.data rep.data s.data)

/-- First-occurrence literal replacement on character lists. -/
def replaceFirstChars (pat rep : List Char) : List Char → List Char
  | [] => []
  | c :: rest =>
    if pat ≠ [] ∧ pat.isPrefixOf (c :: rest) then
      rep ++ (c :: rest).drop pat.length
    else
      c :: replaceFirstChars pat rep rest

/-- First-occurrence literal replacement on strings. -/
def replaceFirst (s pat rep : String) : String :=
  String.mk (replaceFirstChars pat.data rep.data s.data)

/-!
Supabase setup (`src/setup/supabase.ts`).  Each `createX` helper is
"ensure directory (where the source does), write the fixed template to
the fixed path".  `updateEnvironmentVariables` reads `.env.local` when
present (starting from the empty string otherwise), appends the fixed
Supabase block when its marker key is absent, and writes the file back.
-/

namespace SupabaseSetup

/-- `createSupabaseClient` (the `projectType` parameter is unused, as in
the source). -/
def createSupabaseClient (projectType : ProjectType) (s : FS) : FS :=
  s.writeFile "lib/supabase/client.ts" supabaseClientContent

/-- `createSupabaseServer`. -/
def createSupabaseServer (projectType : ProjectType) (s : FS) : FS :=
  s.writeFile "lib/supabase/server.ts" supabaseServerContent

/-- `createSupabaseMiddleware`. -/
def createSupabaseMiddleware (projectType : ProjectType) (s : FS) : FS :=
  s.writeFile "lib/supabase/middleware.ts" supabaseMiddlewareContent

/-- `createSupabaseTypes`. -/
def createSupabaseTypes (s : FS) : FS :=
  s.writeFile "types/supabase.ts" supabaseTypesContent

/-- `createInitialMigration`. -/
def createInitialMigration (s : FS) : FS :=
  s.writeFile "supabase/migrations/001_initial_schema.sql" supabaseMigrationContent

/-- `createSupabaseConfig`. -/
def createSupabaseConfig (s : FS) : FS :=
  s.writeFile "supabase/config.toml" supabaseConfigContent

/-- Content computation of `updateEnvironmentVariables` in
`src/setup/supabase.ts`: append the fixed Supabase block exactly when
the marker key is absent (the function ignores the `'clerk'` service
value). -/
def updateEnvironmentVariablesContent (service : Service) (envContent : String) : String :=
  match service with
  | .supabase =>
    if !(strContains envContent "NEXT_PUBLIC_SUPABASE_URL") then
      envContent ++ supabaseEnvVars
    else
      envContent
  | .clerk => envContent

/-- `updateEnvironmentVariables` of `src/setup/supabase.ts`: read
`.env.local` when present (else start from the empty string), update
the content, write the file. -/
def updateEnvironmentVariables (service : Service) (s : FS) : Except Unit FS := do
  let envContent ←
    if s.pathExists ".env.local" then
      s.readFile ".env.local"
    else
      pure ""
  return s.writeFile ".env.local" (updateEnvironmentVariablesContent service envContent)

/-- `createEnhancedSqlSetup`. -/
def createEnhancedSqlSetup (s : FS) : FS :=
  (s.ensureDir "supabase").writeFile "supabase/enhanced-setup.sql" enhancedSqlContent

/-- `createSupabaseExamples`: the API route goes under `app/` for the
app-router classification and under `pages/` otherwise; the Profile and
ConnectionTest components, the connection-test page and the enhanced
SQL file are written unconditionally. -/
def createSupabaseExamples (projectType : ProjectType) (s : FS) : FS :=
  let s :=
    if projectType = .nextjsApp then
      (s.ensureDir "app/api/profiles").writeFile "app/api/profiles/route.ts" supabaseApiRouteContent
    else
      (s.ensureDir "pages/api/profiles").writeFile "pages/api/profiles/index.ts" supabaseApiRouteContent
  let s := (s.ensureDir "components").writeFile "components/Profile.tsx" profileComponentContent
  let s := s.writeFile "components/ConnectionTest.tsx" connectionTestContent
  let s := (s.ensureDir "app/connection-test").writeFile "app/connection-test/page.tsx" demoPageContent
  createEnhancedSqlSetup s

/-- `setupSupabase`: directories, the six fixed files, the environment
block, the examples.  The only fallible step in the model is the
`.env.local` read. -/
def setupSupabase (setup : ProjectSetup) (s : FS) : Except Unit FS := do
  let s := ((s.ensureDir "lib/supabase").ensureDir "types").ensureDir "supabase/migrations"
  let s := createSupabaseClient setup.projectType s
  let s := createSupabaseServer setup.projectType s
  let s := createSupabaseMiddleware setup.projectType s
  let s := createSupabaseTypes s
  let s := createInitialMigration s
  let s := createSupabaseConfig s
  let s ← updateEnvironmentVariables .supabase s
  let s := createSupabaseExamples setup.projectType s
  return s

end SupabaseSetup

/-!
Clerk setup (`src/setup/clerk.ts`).
-/

namespace ClerkSetup

/-- `createClerkConfig`. -/
def createClerkConfig (s : FS) : FS :=
  s.writeFile "lib/clerk.tsx" clerkConfigContent

/-- `createClerkMiddleware`. -/
def createClerkMiddleware (s : FS) : FS :=
  s.writeFile "middleware.ts" clerkMiddlewareContent

/-- `createSignInPage`: the app-router classification writes the page
under `app/`, every other classification writes it under `pages/`. -/
def createSignInPage (projectType : ProjectType) (s : FS) : FS :=
  if projectType = .nextjsApp then
    s.writeFile "app/sign-in/[[...sign-in]]/page.tsx" signInContent
  else
    (s.ensureDir "pages/sign-in").writeFile "pages/sign-in/[[...sign-in]].tsx" signInContent

/-- `createSignUpPage`. -/
def createSignUpPage (projectType : ProjectType) (s : FS) : FS :=
  if projectType = .nextjsApp then
    s.writeFile "app/sign-up/[[...sign-up]]/page.tsx" signUpContent
  else
    (s.ensureDir "pages/sign-up").writeFile "pages/sign-up/[[...sign-up]].tsx" signUpContent

/-- The import line prepended by `updateExistingLayout`. -/
def clerkImportLine : String :=
  "import \x7b ClerkProviderWrapper \x7d from \x27@/lib/clerk\x27\n"

/-- `updateExistingLayout`: a failing read is caught (console message
only); a layout already mentioning ClerkProvider is left alone;
otherwise the import is prepended when absent and every `{children}`
occurrence is wrapped. -/
def updateExistingLayout (s : FS) : FS :=
  match s.readFile "app/layout.tsx" with
  | .error _ => s
  | .ok content =>
    if strContains content "ClerkProvider" || strContains content "ClerkProviderWrapper" then
      s
    else
      let updatedContent :=
        if !strContains content "from \x27@/lib/clerk\x27" then
          clerkImportLine ++ content
        else
          content
      let updatedContent :=
        jsReplaceAll updatedContent "\x7bchildren\x7d"
          "<ClerkProviderWrapper>\x7bchildren\x7d</ClerkProviderWrapper>"
      s.writeFile "app/layout.tsx" updatedContent

/-- Line test for the `import.*from.*['"]next\/app['"]` regex of
`updateExistingPagesApp` (the pattern matches within one line; both
quote styles are accepted). -/
def nextAppImportLine (l : String) : Bool :=
  strContains l "import" && strContains l "from" &&
    (strContains l "\x27next/app\x27" || strContains l "\"next/app\"")

/-- `updateExistingPagesApp`: a failing read is caught; an `_app.tsx`
already mentioning ClerkProvider is left alone; otherwise the import is
inserted before the `next/app` import (the `$&` back-reference keeps the
matched import) and the first `<Component .../>` element is wrapped.
The two first-occurrence string replacements of the source's callback
are modelled on the whole content; no claim depends on this
transformation. -/
def updateExistingPagesApp (s : FS) : FS :=
  match s.readFile "pages/_app.tsx" with
  | .error _ => s
  | .ok content =>
    if strContains content "ClerkProvider" || strContains content "ClerkProviderWrapper" then
      s
    else
      let updatedContent :=
        if !strContains content "from \x27@/lib/clerk\x27" then
          joinLines ((splitLines content).map (fun l =>
            if nextAppImportLine l then clerkImportLine ++ l else l))
        else
          content
      let updatedContent := replaceFirst updatedContent "<Component" "<ClerkProviderWrapper><Component"
      let updatedContent := replaceFirst updatedContent "/>" "/></ClerkProviderWrapper>"
      s.writeFile "pages/_app.tsx" updatedContent

/-- The fresh `app/layout.tsx` written when none exists. -/
def createClerkProvider (projectType : ProjectType) (s : FS) : FS :=
  if projectType = .nextjsApp then
    if s.pathExists "app/layout.tsx" then
      updateExistingLayout s
    else
      s.writeFile "app/layout.tsx" providerContent
  else
    if s.pathExists "pages/_app.tsx" then
      updateExistingPagesApp s
    else
      s.writeFile "pages/_app.tsx" pagesAppContent

/-- Content computation of `updateEnvironmentVariables` in
`src/setup/clerk.ts`: append the fixed Clerk block exactly when the
marker key is absent (the function ignores the `'supabase'` service
value). -/
def updateEnvironmentVariablesContent (service : Service) (envContent : String) : String :=
  match service with
  | .clerk =>
    if !(strContains envContent "NEXT_PUBLIC_CLERK_PUBLISHABLE_KEY") then
      envContent ++ clerkEnvVars
    else
      envContent
  | .supabase => envContent

/-- `updateEnvironmentVariables` of `src/setup/clerk.ts`. -/
def updateEnvironmentVariables (service : Service) (s : FS) : Except Unit FS := do
  let envContent ←
    if s.pathExists ".env.local" then
      s.readFile ".env.local"
    else
      pure ""
  return s.writeFile ".env.local" (updateEnvironmentVariablesContent service envContent)

/-- `createClerkExamples`. -/
def createClerkExamples (s : FS) : FS :=
  let s := (s.ensureDir "components").writeFile "components/Dashboard.tsx" dashboardContent
  (s.ensureDir "app/api/protected").writeFile "app/api/protected/route.ts" protectedApiRouteContent

/-- `setupClerk`. -/
def setupClerk (setup : ProjectSetup) (s : FS) : Except Unit FS := do
  let s := (((s.ensureDir "lib").ensureDir "components").ensureDir
      "app/sign-in/[[...sign-in]]").ensureDir "app/sign-up/[[...sign-up]]"
  let s := createClerkConfig s
  let s := createClerkMiddleware s
  let s := createSignInPage setup.projectType s
  let s := createSignUpPage setup.projectType s
  let s := createClerkProvider setup.projectType s
  let s ← updateEnvironmentVariables .clerk s
  let s := createClerkExamples s
  return s

end ClerkSetup

/-- `setupWebhooks` (`src/setup/webhooks.ts`): webhook route per
requested service plus the shared utilities module. -/
def setupWebhooks (installSupabase installClerk : Bool) (s : FS) : FS :=
  let s := s.ensureDir "app/api/webhooks"
  let s :=
    if installSupabase then
      (s.ensureDir "app/api/webhooks/supabase").writeFile
        "app/api/webhooks/supabase/route.ts" supabaseWebhookContent
    else
      s
  let s :=
    if installClerk then
      (s.ensureDir "app/api/webhooks/clerk").writeFile
        "app/api/webhooks/clerk/route.ts" clerkWebhookContent
    else
      s
  s.writeFile "lib/webhook-utils.ts" webhookUtilsContent

/-!
Dependency installer (`src/utils/installer.ts`).  The function builds
the runtime and development package lists from the requested
integrations, returns early when both are empty, and otherwise shells
out at most once per list; the shell-outs are recorded as emitted
commands.
-/

/-- One run of `installDependencies`: the two package lists and the
package-manager commands it executes, in order. -/
structure InstallerRun where
  dependencies : List String
  devDependencies : List String
  commands : List String
deriving DecidableEq, Repr

/-- `installDependencies`. -/
def installDependencies (installSupabase installClerk : Bool) (existingSetup : ProjectSetup)
    (hasWebhooks : Bool) : InstallerRun :=
  let dependencies :=
    (if installSupabase && !existingSetup.hasSupabase then
      ["@supabase/supabase-js", "@supabase/ssr"] else []) ++
    (if installClerk && !existingSetup.hasClerk then ["@clerk/nextjs"] else []) ++
    (if hasWebhooks then ["svix"] else []) ++
    (if (installSupabase || installClerk) &&
        (!existingSetup.hasSupabase && !existingSetup.hasClerk) then
      ["react", "react-dom"] else [])
  let devDependencies :=
    if installSupabase && !existingSetup.hasSupabase then ["@types/node"] else []
  if dependencies.isEmpty && devDependencies.isEmpty then
    { dependencies := dependencies, devDependencies := devDependencies, commands := [] }
  else
    { dependencies := dependencies
      devDependencies := devDependencies
      commands :=
        (if !dependencies.isEmpty then
          ["npm install " ++ String.intercalate " " dependencies] else []) ++
        (if !devDependencies.isEmpty then
          ["npm install --save-dev " ++ String.intercalate " " devDependencies] else []) }

/-- `getRequiredDependencies`. -/
def getRequiredDependencies (installSupabase installClerk : Bool) :
    List String × List String :=
  ((if installSupabase then ["@supabase/supabase-js", "@supabase/ssr"] else []) ++
     (if installClerk then ["@clerk/nextjs"] else []),
   if installSupabase then ["@types/node"] else [])

/-!
The `install` subcommand (`src/cli.ts`, lines 22-108).  Flags are the
record below.  The action detects the existing setup, returns early
when both services are present and `--force` is absent, decides which
services to install, runs the setup writers guarded by the detection
flags, optionally sets up webhooks, and finally shells out for
dependencies and migrations (external effects that do not change the
project files; `installDependencies` is modelled separately above).
-/

/-- Flags of the `install` subcommand. -/
structure InstallOptions where
  supabase : Bool
  clerk : Bool
  all : Bool
  skipDeps : Bool
  applyMigrations : Bool
  webhooks : Bool
  force : Bool
deriving DecidableEq, Repr

/-- The `install` action's effect on the project files. -/
def installCmd (options : InstallOptions) (s : FS) : Except Unit FS := do
  let existingSetup := detectExistingSetup s
  if existingSetup.hasSupabase && existingSetup.hasClerk && !options.force then
    return s
  let setupConfig : ProjectSetup := existingSetup
  let installSupabase :=
    options.all || options.supabase || (!options.clerk && !existingSetup.hasSupabase)
  let installClerk :=
    options.all || options.clerk || (!options.supabase && !existingSetup.hasClerk)
  let s ←
    if installSupabase && !existingSetup.hasSupabase then
      SupabaseSetup.setupSupabase setupConfig s
    else
      pure s
  let s ←
    if installClerk && !existingSetup.hasClerk then
      ClerkSetup.setupClerk setupConfig s
    else
      pure s
  let s :=
    if options.webhooks then
      setupWebhooks installSupabase installClerk s
    else
      s
  return s

/-!
Uninstall (`src/setup/uninstall-supabase.ts`).  `uninstallSupabase`
removes the four fixed paths that exist, shells out to remove the
dependencies unless `keepDeps` is set (external effect), and cleans the
Supabase variables out of `.env.local`.  `cleanupEnvironmentVariables`
blanks the lines of the service's variables, collapses blank lines,
trims, and either rewrites the file with a trailing newline or deletes
it when nothing is left; its `try` wrapper catches a failing read
(console message only).
-/

/-- The Supabase environment variables removed by the cleanup. -/
def supabaseVars : List String :=
  ["NEXT_PUBLIC_SUPABASE_URL", "NEXT_PUBLIC_SUPABASE_ANON_KEY",
   "SUPABASE_SERVICE_ROLE_KEY", "DATABASE_URL"]

/-- The Clerk environment variables removed by the cleanup. -/
def clerkVars : List String :=
  ["NEXT_PUBLIC_CLERK_PUBLISHABLE_KEY", "CLERK_SECRET_KEY",
   "NEXT_PUBLIC_CLERK_SIGN_IN_URL", "NEXT_PUBLIC_CLERK_SIGN_UP_URL",
   "NEXT_PUBLIC_CLERK_AFTER_SIGN_IN_URL", "NEXT_PUBLIC_CLERK_AFTER_SIGN_UP_URL"]

/-- Does a line match one of the anchored `^VAR=.*$` patterns? -/
def matchesVarLine (vars : List String) (l : String) : Bool :=
  vars.any (fun v => strStarts l (v ++ "="))

/-- The per-variable global replacements `content.replace(^VAR=.*$m, '')`:
every matching line becomes the empty line (the replacements for the
different variables act on disjoint line sets, so the sequential loop of
the source equals this single pass). -/
def removeVarLines (vars : List String) (content : String) : String :=
  joinLines ((splitLines content).map (fun l => if matchesVarLine vars l then "" else l))

/-- The content pipeline of `cleanupEnvironmentVariables`: blank the
variable lines, collapse blank lines, trim. -/
def stripEnvVars (vars : List String) (content : String) : String :=
  jsTrim (String.mk (collapseNl (removeVarLines vars content).data))

/-- Variable list of the service, as selected by the two branches of
`cleanupEnvironmentVariables`. -/
def serviceVars : Service → List String
  | .supabase => supabaseVars
  | .clerk => clerkVars

/-- `cleanupEnvironmentVariables`: missing file means nothing to do; a
failing read is caught; otherwise the stripped content is written back
with a trailing newline, or the file is removed when the stripped
content is empty. -/
def cleanupEnvironmentVariables (service : Service) (s : FS) : FS :=
  if !(s.pathExists ".env.local") then
    s
  else
    match s.readFile ".env.local" with
    | .error _ => s
    | .ok content =>
      let stripped := stripEnvVars (serviceVars service) content
      if stripped = "" then
        s.remove ".env.local"
      else
        s.writeFile ".env.local" (stripped ++ "\n")

/-- The four paths `uninstallSupabase` removes. -/
def supabaseRemovePaths : List String :=
  ["lib/supabase", "types/supabase.ts", "supabase", "components/Profile.tsx"]

/-- `uninstallSupabase`: remove each existing path of the fixed list,
then clean the environment file (the `npm uninstall` shell-out is an
external effect on `package.json`, outside the modelled project
files). -/
def uninstallSupabase (keepDeps : Bool) (s : FS) : FS :=
  let s := supabaseRemovePaths.foldl
    (fun st p => if st.pathExists p then st.remove p else st) s
  cleanupEnvironmentVariables .supabase s

/-- A "clean" line of an environment file: nonempty, newline-free, and
starting and ending with a non-whitespace character.  Such lines pass
through the blank-line collapse and the final trim untouched. -/
def cleanChars (l : List Char) : Bool :=
  match l.head?, l.getLast? with
  | some a, some z => !wsChar a && !wsChar z && !l.contains '\n'
  | _, _ => false

/-- `cleanChars` on strings. -/
def cleanLine (s : String) : Bool :=
  cleanChars s.data

/-- The project state after running the Supabase install step on a
minimal Next.js project holding one user environment line and a readme
(used to exhibit the install-then-uninstall behaviour on a concrete
project). -/
def c1WitnessState : FS :=
  match SupabaseSetup.setupSupabase ⟨false, false, false, ProjectType.nextjs⟩
    ⟨[(".env.local", some (joinLines ["USER_VAR=1"] ++ "\n")), ("README.md", some "readme")],
      [], some ⟨["next"]⟩⟩ with
  | .ok s => s
  | .error _ => ⟨[], [], none⟩


/-- Flags of the exhibiting first install run: `install --all
--skip-deps` on a fresh project. -/
def c2Options1 : InstallOptions :=
  ⟨false, false, true, true, false, false, false⟩

/-- Flags of the exhibiting second install run: a plain `install`. -/
def c2Options2 : InstallOptions :=
  ⟨false, false, false, false, false, false, false⟩

/-- A fresh minimal Next.js project: a manifest declaring `next`, no
files, no directories. -/
def c2Start : FS :=
  ⟨[], [], some ⟨["next"]⟩⟩

/-- The project state produced by the first install run on the fresh
project (used to exhibit that the second run is a no-op). -/
def c2Installed : FS :=
  match installCmd c2Options1 c2Start with
  | .ok s => s
  | .error _ => ⟨[], [], none⟩


/-- Sanity check of the collapse semantics: runs of blank lines shrink
to one separator. -/
theorem collapseNl_example_blankRun : collapseNl "a\n\n\nb".data = "a\nb".data := by decide

/-- Sanity check of the collapse semantics: whitespace-only interior
lines disappear even when the flanking lines carry edge whitespace. -/
theorem collapseNl_example_edgeWs : collapseNl "a  \n \n  b".data = "a  \n  b".data := by decide

/-- Sanity check of the collapse semantics: a single newline (with or
without adjacent line-interior whitespace) is not a match and is kept. -/
theorem collapseNl_example_single : collapseNl "a \n b".data = "a \n b".data := by decide

/-- Sanity check of the collapse semantics: a leading whitespace-only
line has no preceding newline and survives the replacement (it is
removed later only by `trim`). -/
theorem collapseNl_example_leading : collapseNl "  \na".data = "  \na".data := by decide

/-- Sanity check for the trim model. -/
theorem jsTrim_example : jsTrim "  a\nb \n" = "a\nb" := by decide

/-- Sanity check for line splitting. -/
theorem splitLines_example : splitLines "a\n\nb" = ["a", "", "b"] := by decide

/-- Sanity check for line joining. -/
theorem joinLines_example : joinLines ["a", "", "b"] = "a\n\nb" := by decide

/-!
Algebraic facts about the filesystem model, used to trace detection and
the writers over partially symbolic states.
-/

/-- Characters of an appended string. -/
theorem String.data_append_eq (s t : String) : (s ++ t).data = s.data ++ t.data := rfl

/-- `strContains` propositionally. -/
theorem strContains_iff {s pat : String} : strContains s pat = true ↔ pat.data <:+: s.data := by
  simp [strContains]

/-- A substring of the right part is a substring of the whole. -/
theorem strContains_append_right {b pat : String} (a : String)
    (h : strContains b pat = true) : strContains (a ++ b) pat = true := by
  rw [strContains_iff] at h ⊢
  rw [String.data_append_eq]
  rcases h with ⟨u, v, huv⟩
  exact ⟨a.data ++ u, v, by rw [← huv]; simp⟩

/-- Auxiliary: `find?` by key is unaffected by filtering away a
different key. -/
theorem find?_filter_ne_key {l : List (String × Option String)} {p q : String} (h : ¬q = p) :
    (l.filter (fun e => !(e.1 = p))).find? (fun e => e.1 = q) = l.find? (fun e => e.1 = q) := by
  have hpq : ¬(p = q) := fun hh => h hh.symm
  induction l with
  | nil => rfl
  | cons a t ih =>
    by_cases hap : a.1 = p
    · have haq : ¬(a.1 = q) := by rw [hap]; exact hpq
      simp [List.filter_cons, hap, List.find?_cons, haq, hpq, h, ih]
    · by_cases haq : a.1 = q
      · simp [List.filter_cons, hap, List.find?_cons, haq, hpq, h]
      · simp [List.filter_cons, hap, List.find?_cons, haq, hpq, h, ih]

/-- Writing a file stores its content. -/
theorem FS.lookupFile_writeFile_self (s : FS) (p c : String) :
    (s.writeFile p c).lookupFile p = some (some c) := by
  simp [FS.writeFile, FS.lookupFile, List.find?_cons]

/-- Writing a file leaves other paths alone. -/
theorem FS.lookupFile_writeFile_ne (s : FS) {p q : String} (c : String) (h : ¬q = p) :
    (s.writeFile p c).lookupFile q = s.lookupFile q := by
  have hpq : ¬(p = q) := fun hh => h hh.symm
  simp [FS.writeFile, FS.lookupFile, List.find?_cons, hpq, find?_filter_ne_key h]

/-- `ensureDir` does not change file contents. -/
theorem FS.lookupFile_ensureDir (s : FS) (d q : String) :
    (s.ensureDir d).lookupFile q = s.lookupFile q := by
  simp only [FS.ensureDir]
  split <;> rfl

/-- `ensureDir` does not change the manifest. -/
theorem FS.pkg_ensureDir (s : FS) (d : String) : (s.ensureDir d).pkg = s.pkg := by
  simp only [FS.ensureDir]
  split <;> rfl

/-- `writeFile` does not change the manifest. -/
theorem FS.pkg_writeFile (s : FS) (p c : String) : (s.writeFile p c).pkg = s.pkg := rfl

/-- `remove` does not change the manifest. -/
theorem FS.pkg_remove (s : FS) (p : String) : (s.remove p).pkg = s.pkg := rfl

/-- A path with a stored file exists. -/
theorem FS.pathExists_of_lookupFile {s : FS} {q : String} {v : Option String}
    (h : s.lookupFile q = some v) : s.pathExists q = true := by
  simp only [FS.lookupFile, Option.map_eq_some'] at h
  rcases h with ⟨e, he, _⟩
  have hmem := List.mem_of_find?_eq_some he
  have hkey := List.find?_some he
  simp only [decide_eq_true_eq] at hkey
  simp only [FS.pathExists, Bool.or_eq_true, List.any_eq_true]
  exact Or.inl ⟨e, hmem, by simp [hkey]⟩

/-- Pointwise-equal predicates give equal `any`. -/
theorem list_any_congr {α : Type} {p q : α → Bool} {l : List α}
    (h : ∀ a ∈ l, p a = q a) : l.any p = l.any q := by
  induction l with
  | nil => rfl
  | cons a t ih =>
    simp only [List.any_cons, h a (List.mem_cons_self a t)]
    rw [ih (fun b hb => h b (List.mem_cons_of_mem a hb))]

/-- Membership characterisation of `pathExists`. -/
theorem FS.pathExists_iff {s : FS} {q : String} :
    s.pathExists q = true ↔
      (∃ e ∈ s.files, e.1 = q ∨ strStarts e.1 (q ++ "/") = true) ∨
        ∃ d ∈ s.dirs, d = q ∨ strStarts d (q ++ "/") = true := by
  simp [FS.pathExists, List.any_eq_true]

/-- Writing at `p` preserves existence of a path `q` that is neither
`p` nor above `p`. -/
theorem FS.pathExists_writeFile_ne (s : FS) {p q : String} (c : String)
    (h1 : ¬p = q) (h2 : strStarts p (q ++ "/") = false) :
    (s.writeFile p c).pathExists q = s.pathExists q := by
  have hhead : (((p, some c).1 = q : Bool) || strStarts (p, some c).1 (q ++ "/")) = false := by
    simp [h1, h2]
  simp only [FS.writeFile, FS.pathExists, List.any_cons, hhead, Bool.false_or,
    List.any_filter]
  congr 1
  apply list_any_congr
  intro e _
  by_cases hep : e.1 = p
  · simp [hep, h1, h2]
  · simp [hep]

/-- A write makes its own path exist. -/
theorem FS.pathExists_writeFile_self (s : FS) (p c : String) :
    (s.writeFile p c).pathExists p = true := by
  simp [FS.writeFile, FS.pathExists, List.any_cons]

/-- `ensureDir` preserves existence of unrelated paths. -/
theorem FS.pathExists_ensureDir_ne (s : FS) {d q : String}
    (h1 : ¬d = q) (h2 : strStarts d (q ++ "/") = false) :
    (s.ensureDir d).pathExists q = s.pathExists q := by
  simp only [FS.ensureDir]
  split
  · rfl
  · simp [FS.pathExists, List.any_cons, h1, h2]

/-- `ensureDir` makes its directory exist. -/
theorem FS.pathExists_ensureDir_self (s : FS) (d : String) :
    (s.ensureDir d).pathExists d = true := by
  simp only [FS.ensureDir]
  split
  · next hc =>
    simp only [FS.pathExists, Bool.or_eq_true, List.any_eq_true]
    exact Or.inr ⟨d, by simpa using hc, by simp⟩
  · simp [FS.pathExists, List.any_cons]

/-- Removing `p` erases everything at or below `p`. -/
theorem FS.pathExists_remove_self (s : FS) (p : String) :
    (s.remove p).pathExists p = false := by
  simp only [FS.remove, FS.pathExists, Bool.or_eq_false_iff]
  constructor
  · rw [List.any_eq_false]
    intro e he
    have := List.of_mem_filter he
    simpa using this
  · rw [List.any_eq_false]
    intro d hd
    have := List.of_mem_filter hd
    simpa using this

/-- Removing `p` preserves the content of a path that is neither `p`
nor below `p`. -/
theorem FS.lookupFile_remove_ne (s : FS) {p q : String}
    (h1 : ¬q = p) (h2 : strStarts q (p ++ "/") = false) :
    (s.remove p).lookupFile q = s.lookupFile q := by
  simp only [FS.remove, FS.lookupFile]
  congr 1
  induction s.files with
  | nil => rfl
  | cons a t ih =>
    rw [List.filter_cons]
    by_cases haq : a.1 = q
    · have hkeep : (!((a.1 = p : Bool) || strStarts a.1 (p ++ "/"))) = true := by
        rw [haq]
        simp [h1, h2]
      rw [hkeep]
      simp only [if_true]
      rw [List.find?_cons, List.find?_cons]
      simp [haq]
    · cases hdrop : ((a.1 = p : Bool) || strStarts a.1 (p ++ "/")) with
      | true =>
        simp only [hdrop, Bool.not_true, Bool.false_eq_true, if_false, ih]
        rw [List.find?_cons]
        simp [haq]
      | false =>
        simp only [hdrop, Bool.not_false, if_true]
        rw [List.find?_cons, List.find?_cons]
        have haqd : (decide (a.1 = q)) = false := by simp [haq]
        simp only [haqd]
        exact ih

/-!
Claim theorems.
-/

/-- C3 counterexample: a project whose manifest declares `next` but that
has neither an `app/` nor a `pages/` directory is classified `nextjs`,
not `unknown`, so the claimed `'unknown'` result is false at this
input. -/
theorem claim_C3_cex :
    detectProjectType ⟨[], [], some ⟨["next"]⟩⟩ = ProjectType.nextjs ∧
      ¬detectProjectType ⟨[], [], some ⟨["next"]⟩⟩ = ProjectType.unknown := by
  decide

/-- C3 (amended): a directory whose manifest declares the `next`
dependency and that has neither an `app/` nor a `pages/` path is
classified as the plain `nextjs` case (`'unknown'` is reserved for a
missing/unparseable manifest or a missing `next` dependency); adding an
`app/` directory and re-running classification yields `nextjs-app`. -/
theorem claim_C3 (s : FS) (pj : PackageJson) (hpkg : s.pkg = some pj)
    (hnext : pj.dependencies.contains "next" = true)
    (happ : s.pathExists "app" = false) (hpages : s.pathExists "pages" = false) :
    detectProjectType s = ProjectType.nextjs ∧
      detectProjectType (s.ensureDir "app") = ProjectType.nextjsApp := by
  have hmem : "next" ∈ pj.dependencies := by
    simpa using hnext
  constructor
  · simp [detectProjectType, detectProjectTypeT, FS.readPkgJson, hpkg, hmem, happ, hpages,
      Bind.bind, Except.bind, pure, Except.pure]
  · have hp : (s.ensureDir "app").pkg = some pj := by rw [FS.pkg_ensureDir]; exact hpkg
    have ha : (s.ensureDir "app").pathExists "app" = true := FS.pathExists_ensureDir_self s "app"
    simp [detectProjectType, detectProjectTypeT, FS.readPkgJson, hp, hmem, ha,
      Bind.bind, Except.bind, pure, Except.pure]

/-- C3 witness: the amended classification at a concrete project. -/
theorem claim_C3_witness :
    detectProjectType ⟨[("README.md", some "hello")], [], some ⟨["next", "react"]⟩⟩
        = ProjectType.nextjs ∧
      detectProjectType ((FS.mk [("README.md", some "hello")] [] (some ⟨["next", "react"]⟩)).ensureDir "app")
        = ProjectType.nextjsApp :=
  claim_C3 ⟨[("README.md", some "hello")], [], some ⟨["next", "react"]⟩⟩ ⟨["next", "react"]⟩
    rfl (by decide) (by decide) (by decide)

/-- C9: for the app-router classification the sign-in/sign-up pages go
to `app/sign-in/[[...sign-in]]/page.tsx` and
`app/sign-up/[[...sign-up]]/page.tsx`; for every other classification
they go to `pages/sign-in/[[...sign-in]].tsx` and
`pages/sign-up/[[...sign-up]].tsx` (leaving the app-router paths
untouched), and the two layouts use different paths. -/
theorem claim_C9 (pt : ProjectType) (s : FS) :
    (pt = ProjectType.nextjsApp →
      (ClerkSetup.createSignInPage pt s).lookupFile "app/sign-in/[[...sign-in]]/page.tsx"
          = some (some signInContent) ∧
        (ClerkSetup.createSignUpPage pt s).lookupFile "app/sign-up/[[...sign-up]]/page.tsx"
          = some (some signUpContent)) ∧
    (¬pt = ProjectType.nextjsApp →
      (ClerkSetup.createSignInPage pt s).lookupFile "pages/sign-in/[[...sign-in]].tsx"
          = some (some signInContent) ∧
        (ClerkSetup.createSignInPage pt s).lookupFile "app/sign-in/[[...sign-in]]/page.tsx"
          = s.lookupFile "app/sign-in/[[...sign-in]]/page.tsx" ∧
        (ClerkSetup.createSignUpPage pt s).lookupFile "pages/sign-up/[[...sign-up]].tsx"
          = some (some signUpContent) ∧
        (ClerkSetup.createSignUpPage pt s).lookupFile "app/sign-up/[[...sign-up]]/page.tsx"
          = s.lookupFile "app/sign-up/[[...sign-up]]/page.tsx") ∧
    ¬("app/sign-in/[[...sign-in]]/page.tsx" = "pages/sign-in/[[...sign-in]].tsx") ∧
    ¬("app/sign-up/[[...sign-up]]/page.tsx" = "pages/sign-up/[[...sign-up]].tsx") := by
  refine ⟨fun h => ?_, fun h => ?_, by decide, by decide⟩
  · subst h
    simp [ClerkSetup.createSignInPage, ClerkSetup.createSignUpPage,
      FS.lookupFile_writeFile_self]
  · constructor
    · simp [ClerkSetup.createSignInPage, h, FS.lookupFile_writeFile_self]
    constructor
    · simp only [ClerkSetup.createSignInPage, h, if_false]
      rw [FS.lookupFile_writeFile_ne _ _ (by decide), FS.lookupFile_ensureDir]
    constructor
    · simp [ClerkSetup.createSignUpPage, h, FS.lookupFile_writeFile_self]
    · simp only [ClerkSetup.createSignUpPage, h, if_false]
      rw [FS.lookupFile_writeFile_ne _ _ (by decide), FS.lookupFile_ensureDir]

/-- C9 witness: the pages-router branch at a concrete state, via the
theorem. -/
theorem claim_C9_witness :
    (ClerkSetup.createSignInPage ProjectType.nextjsPages ⟨[], [], none⟩).lookupFile
        "pages/sign-in/[[...sign-in]].tsx" = some (some signInContent) ∧
      (ClerkSetup.createSignUpPage ProjectType.nextjsPages ⟨[], [], none⟩).lookupFile
        "pages/sign-up/[[...sign-up]].tsx" = some (some signUpContent) :=
  ⟨((claim_C9 ProjectType.nextjsPages ⟨[], [], none⟩).2.1 (by decide)).1,
   ((claim_C9 ProjectType.nextjsPages ⟨[], [], none⟩).2.1 (by decide)).2.2.1⟩

/-- C8: the dependency installer adds `@supabase/supabase-js` and
`@supabase/ssr` (runtime) and `@types/node` (dev) when Supabase is
requested and not already present, adds `@clerk/nextjs` when Clerk is
requested and not already present, executes at most one runtime and at
most one dev package-manager command, and executes none when both
package lists are empty. -/
theorem claim_C8 (installSupabase installClerk : Bool) (existingSetup : ProjectSetup)
    (hasWebhooks : Bool) :
    (installSupabase = true → existingSetup.hasSupabase = false →
      "@supabase/supabase-js" ∈ (installDependencies installSupabase installClerk
          existingSetup hasWebhooks).dependencies ∧
        "@supabase/ssr" ∈ (installDependencies installSupabase installClerk
          existingSetup hasWebhooks).dependencies ∧
        (installDependencies installSupabase installClerk existingSetup
          hasWebhooks).devDependencies = ["@types/node"]) ∧
    (installClerk = true → existingSetup.hasClerk = false →
      "@clerk/nextjs" ∈ (installDependencies installSupabase installClerk
          existingSetup hasWebhooks).dependencies) ∧
    ((installDependencies installSupabase installClerk existingSetup
        hasWebhooks).commands.filter
          (fun cmd => strStarts cmd "npm install --save-dev")).length ≤ 1 ∧
    ((installDependencies installSupabase installClerk existingSetup
        hasWebhooks).commands.filter
          (fun cmd => !strStarts cmd "npm install --save-dev")).length ≤ 1 ∧
    ((installDependencies installSupabase installClerk existingSetup
        hasWebhooks).dependencies = [] →
      (installDependencies installSupabase installClerk existingSetup
        hasWebhooks).devDependencies = [] →
      (installDependencies installSupabase installClerk existingSetup
        hasWebhooks).commands = []) := by
  obtain ⟨hs, hc, hn, pt⟩ := existingSetup
  cases installSupabase <;> cases installClerk <;> cases hs <;> cases hc <;>
    cases hasWebhooks <;>
    refine ⟨?_, ?_, ?_, ?_, ?_⟩ <;>
    simp [installDependencies] <;>
    decide

/-- C8 witness: requesting both services over an empty setup, via the
theorem. -/
theorem claim_C8_witness :
    "@supabase/supabase-js" ∈
        (installDependencies true true ⟨false, false, false, ProjectType.unknown⟩
          false).dependencies ∧
      "@clerk/nextjs" ∈
        (installDependencies true true ⟨false, false, false, ProjectType.unknown⟩
          false).dependencies :=
  ⟨((claim_C8 true true ⟨false, false, false, ProjectType.unknown⟩ false).1 rfl rfl).1,
   (claim_C8 true true ⟨false, false, false, ProjectType.unknown⟩ false).2.1 rfl rfl⟩

/-- C7: each environment-file patching step appends its fixed block
exactly when its marker key is absent, always keeps the pre-existing
content as a prefix, and is idempotent (the appended block contains the
marker, so a second run appends nothing). -/
theorem claim_C7 (c : String) :
    (strContains c "NEXT_PUBLIC_SUPABASE_URL" = false →
      SupabaseSetup.updateEnvironmentVariablesContent Service.supabase c
        = c ++ supabaseEnvVars) ∧
    (strContains c "NEXT_PUBLIC_SUPABASE_URL" = true →
      SupabaseSetup.updateEnvironmentVariablesContent Service.supabase c = c) ∧
    SupabaseSetup.updateEnvironmentVariablesContent Service.supabase
        (SupabaseSetup.updateEnvironmentVariablesContent Service.supabase c)
      = SupabaseSetup.updateEnvironmentVariablesContent Service.supabase c ∧
    (strContains c "NEXT_PUBLIC_CLERK_PUBLISHABLE_KEY" = false →
      ClerkSetup.updateEnvironmentVariablesContent Service.clerk c = c ++ clerkEnvVars) ∧
    (strContains c "NEXT_PUBLIC_CLERK_PUBLISHABLE_KEY" = true →
      ClerkSetup.updateEnvironmentVariablesContent Service.clerk c = c) ∧
    ClerkSetup.updateEnvironmentVariablesContent Service.clerk
        (ClerkSetup.updateEnvironmentVariablesContent Service.clerk c)
      = ClerkSetup.updateEnvironmentVariablesContent Service.clerk c := by
  have hsub : strContains supabaseEnvVars "NEXT_PUBLIC_SUPABASE_URL" = true := by decide
  have hclk : strContains clerkEnvVars "NEXT_PUBLIC_CLERK_PUBLISHABLE_KEY" = true := by decide
  refine ⟨fun h => ?_, fun h => ?_, ?_, fun h => ?_, fun h => ?_, ?_⟩
  · simp [SupabaseSetup.updateEnvironmentVariablesContent, h]
  · simp [SupabaseSetup.updateEnvironmentVariablesContent, h]
  · cases hm : strContains c "NEXT_PUBLIC_SUPABASE_URL" with
    | true => simp [SupabaseSetup.updateEnvironmentVariablesContent, hm]
    | false =>
      have happ : strContains (c ++ supabaseEnvVars) "NEXT_PUBLIC_SUPABASE_URL" = true :=
        strContains_append_right c hsub
      simp [SupabaseSetup.updateEnvironmentVariablesContent, hm, happ]
  · simp [ClerkSetup.updateEnvironmentVariablesContent, h]
  · simp [ClerkSetup.updateEnvironmentVariablesContent, h]
  · cases hm : strContains c "NEXT_PUBLIC_CLERK_PUBLISHABLE_KEY" with
    | true => simp [ClerkSetup.updateEnvironmentVariablesContent, hm]
    | false =>
      have happ : strContains (c ++ clerkEnvVars) "NEXT_PUBLIC_CLERK_PUBLISHABLE_KEY" = true :=
        strContains_append_right c hclk
      simp [ClerkSetup.updateEnvironmentVariablesContent, hm, happ]

/-- C7 witness: the patching step at a concrete environment file, via
the theorem. -/
theorem claim_C7_witness :
    SupabaseSetup.updateEnvironmentVariablesContent Service.supabase "EXISTING=1"
        = "EXISTING=1" ++ supabaseEnvVars ∧
      SupabaseSetup.updateEnvironmentVariablesContent Service.supabase
          (SupabaseSetup.updateEnvironmentVariablesContent Service.supabase "EXISTING=1")
        = SupabaseSetup.updateEnvironmentVariablesContent Service.supabase "EXISTING=1" ∧
      ClerkSetup.updateEnvironmentVariablesContent Service.clerk "EXISTING=1"
        = "EXISTING=1" ++ clerkEnvVars :=
  ⟨(claim_C7 "EXISTING=1").1 (by decide),
   (claim_C7 "EXISTING=1").2.2.1,
   (claim_C7 "EXISTING=1").2.2.2.1 (by decide)⟩

/-- C6: when reading or parsing `package.json` fails, every detector
returns its absent result (`'unknown'` / `false`); and whenever a
detector's `try` body escapes with a read error on any probed file, the
catch handler turns it into the absent result, so detection never
propagates an error. -/
theorem claim_C6 (s : FS) :
    (s.pkg = none →
      detectProjectType s = ProjectType.unknown ∧ detectSupabase s = false ∧
        detectClerk s = false ∧ detectNextAuth s = false) ∧
    (∀ e, detectProjectTypeT s = .error e → detectProjectType s = ProjectType.unknown) ∧
    (∀ e, detectSupabaseT s = .error e → detectSupabase s = false) ∧
    (∀ e, detectClerkT s = .error e → detectClerk s = false) ∧
    (∀ e, detectNextAuthT s = .error e → detectNextAuth s = false) := by
  refine ⟨fun hpkg => ?_, fun e h => ?_, fun e h => ?_, fun e h => ?_, fun e h => ?_⟩
  · refine ⟨?_, ?_, ?_, ?_⟩
    · simp [detectProjectType, detectProjectTypeT, FS.readPkgJson, hpkg,
        Bind.bind, Except.bind]
    · simp [detectSupabase, detectSupabaseT, FS.readPkgJson, hpkg,
        Bind.bind, Except.bind]
    · simp [detectClerk, detectClerkT, FS.readPkgJson, hpkg,
        Bind.bind, Except.bind]
    · simp [detectNextAuth, detectNextAuthT, FS.readPkgJson, hpkg,
        Bind.bind, Except.bind]
  · simp [detectProjectType, h]
  · simp [detectSupabase, h]
  · simp [detectClerk, h]
  · simp [detectNextAuth, h]

/-- C6 witness: a missing manifest and an unreadable `.env.local`, via
the theorem (the second state's `try` body escapes with the read error
of `.env.local` and the wrapper still reports absent). -/
theorem claim_C6_witness :
    (detectProjectType ⟨[("lib/supabase/client.ts", some "import @supabase/ssr")], [], none⟩
        = ProjectType.unknown ∧
      detectSupabase ⟨[("lib/supabase/client.ts", some "import @supabase/ssr")], [], none⟩
        = false ∧
      detectClerk ⟨[("lib/supabase/client.ts", some "import @supabase/ssr")], [], none⟩
        = false ∧
      detectNextAuth ⟨[("lib/supabase/client.ts", some "import @supabase/ssr")], [], none⟩
        = false) ∧
    detectSupabase ⟨[(".env.local", none)], [], some ⟨[]⟩⟩ = false :=
  ⟨(claim_C6 ⟨[("lib/supabase/client.ts", some "import @supabase/ssr")], [], none⟩).1 rfl,
   (claim_C6 ⟨[(".env.local", none)], [], some ⟨[]⟩⟩).2.2.1 () rfl⟩

/-- Removing a path erases its file entry. -/
theorem FS.lookupFile_remove_self (s : FS) (p : String) :
    (s.remove p).lookupFile p = none := by
  simp only [FS.remove, FS.lookupFile, Option.map_eq_none']
  rw [List.find?_eq_none]
  intro e he
  have := List.of_mem_filter he
  simp only [Bool.not_eq_true', Bool.or_eq_false_iff, decide_eq_false_iff_not] at this
  simpa using this.1

/-- A successful read determines the stored entry. -/
theorem FS.lookupFile_of_readFile {s : FS} {p c : String}
    (hc : s.readFile p = .ok c) : s.lookupFile p = some (some c) := by
  cases h : s.lookupFile p with
  | none => simp [FS.readFile, h] at hc
  | some v =>
    cases v with
    | none => simp [FS.readFile, h] at hc
    | some c2 =>
      simp only [FS.readFile, h] at hc
      cases hc
      rfl

/-- C10: if stripping the service's variables leaves nothing (after
blank-line collapsing and trimming), the cleanup deletes `.env.local`
instead of writing an empty file; otherwise it rewrites the file with
the stripped content plus one trailing newline. -/
theorem claim_C10 (svc : Service) (s : FS) (c : String)
    (hc : s.readFile ".env.local" = .ok c) :
    (stripEnvVars (serviceVars svc) c = "" →
      (cleanupEnvironmentVariables svc s).lookupFile ".env.local" = none ∧
        (cleanupEnvironmentVariables svc s).pathExists ".env.local" = false) ∧
    (¬stripEnvVars (serviceVars svc) c = "" →
      (cleanupEnvironmentVariables svc s).lookupFile ".env.local"
        = some (some (stripEnvVars (serviceVars svc) c ++ "\n"))) := by
  have hlk := FS.lookupFile_of_readFile hc
  have hpe : s.pathExists ".env.local" = true := FS.pathExists_of_lookupFile hlk
  constructor
  · intro hempty
    have : cleanupEnvironmentVariables svc s = s.remove ".env.local" := by
      simp [cleanupEnvironmentVariables, hpe, hc, hempty]
    rw [this]
    exact ⟨FS.lookupFile_remove_self s ".env.local",
      FS.pathExists_remove_self s ".env.local"⟩
  · intro hne
    have : cleanupEnvironmentVariables svc s
        = s.writeFile ".env.local" (stripEnvVars (serviceVars svc) c ++ "\n") := by
      simp [cleanupEnvironmentVariables, hpe, hc, hne]
    rw [this]
    exact FS.lookupFile_writeFile_self s ".env.local" _

/-- C10 witness: a file holding only Supabase variables is deleted; one
holding an unrelated line is rewritten with the survivors, via the
theorem. -/
theorem claim_C10_witness :
    (cleanupEnvironmentVariables Service.supabase
        ⟨[(".env.local", some "NEXT_PUBLIC_SUPABASE_URL=x\nNEXT_PUBLIC_SUPABASE_ANON_KEY=y\n")],
          [], none⟩).lookupFile ".env.local" = none ∧
      (cleanupEnvironmentVariables Service.supabase
        ⟨[(".env.local", some "KEEP=1\nNEXT_PUBLIC_SUPABASE_URL=x\n")], [], none⟩).lookupFile
          ".env.local" = some (some "KEEP=1\n") := by
  constructor
  · exact ((claim_C10 Service.supabase
      ⟨[(".env.local", some "NEXT_PUBLIC_SUPABASE_URL=x\nNEXT_PUBLIC_SUPABASE_ANON_KEY=y\n")],
        [], none⟩ "NEXT_PUBLIC_SUPABASE_URL=x\nNEXT_PUBLIC_SUPABASE_ANON_KEY=y\n" rfl).1
      (by decide)).1
  · have := (claim_C10 Service.supabase
      ⟨[(".env.local", some "KEEP=1\nNEXT_PUBLIC_SUPABASE_URL=x\n")], [], none⟩
      "KEEP=1\nNEXT_PUBLIC_SUPABASE_URL=x\n" rfl).2 (by decide)
    rw [this]
    decide

/-- C5 evaluation: when both integrations are detected, the `install`
action leaves the project files exactly as they are for every flag
combination that sets `--force` (and does not request webhooks) — the
setup writers are guarded by `installX && !existingSetup.hasX`
independently of the force flag, so forcing never reruns them. -/
theorem claim_C5 (o : InstallOptions) (s : FS)
    (hS : detectSupabase s = true) (hC : detectClerk s = true)
    (hf : o.force = true) (hw : o.webhooks = false) :
    installCmd o s = .ok s := by
  simp [installCmd, detectExistingSetup, hS, hC, hf, hw,
    Bind.bind, Except.bind, pure, Except.pure]

/-- C5 witness: a concrete project with both services detected and a
stale `middleware.ts`; `install --all --force` leaves every file
unchanged (in particular the stale file is not rewritten), via the
theorem. -/
theorem claim_C5_witness :
    installCmd ⟨false, false, true, false, false, false, true⟩
        ⟨[("middleware.ts", some "OLD CONTENT")], [],
          some ⟨["@supabase/supabase-js", "@clerk/nextjs"]⟩⟩
      = .ok ⟨[("middleware.ts", some "OLD CONTENT")], [],
          some ⟨["@supabase/supabase-js", "@clerk/nextjs"]⟩⟩ :=
  claim_C5 ⟨false, false, true, false, false, false, true⟩
    ⟨[("middleware.ts", some "OLD CONTENT")], [],
      some ⟨["@supabase/supabase-js", "@clerk/nextjs"]⟩⟩
    (by decide) (by decide) rfl rfl

/-!
Line-level facts about splitting, joining, blank-line collapsing and
trimming, used to compute the environment-file cleanup on symbolic
line lists.
-/

/-- Splitting never yields the empty list. -/
theorem splitNlChars_ne_nil (l : List Char) : splitNlChars l ≠ [] := by
  cases l with
  | nil => simp [splitNlChars]
  | cons c cs =>
    simp only [splitNlChars]
    split
    · simp
    · split <;> simp

/-- A newline-free list splits into itself. -/
theorem splitNlChars_nlFree {l : List Char} (h : ∀ c ∈ l, ¬c = '\n') :
    splitNlChars l = [l] := by
  induction l with
  | nil => rfl
  | cons c cs ih =>
    have hc : ¬c = '\n' := h c (List.mem_cons_self c cs)
    have hrest := ih (fun x hx => h x (List.mem_cons_of_mem c hx))
    simp [splitNlChars, hc, hrest]

/-- Splitting after a newline-free prefix peels it off as one line. -/
theorem splitNlChars_append_nl {a : List Char} (b : List Char)
    (h : ∀ c ∈ a, ¬c = '\n') :
    splitNlChars (a ++ '\n' :: b) = a :: splitNlChars b := by
  induction a with
  | nil => simp [splitNlChars]
  | cons c cs ih =>
    have hc : ¬c = '\n' := h c (List.mem_cons_self c cs)
    have hrest := ih (fun x hx => h x (List.mem_cons_of_mem c hx))
    simp [splitNlChars, hc, hrest]

/-- Joining a nonempty tail inserts one separator. -/
theorem joinNlChars_cons (l : List Char) {ls : List (List Char)} (h : ls ≠ []) :
    joinNlChars (l :: ls) = l ++ '\n' :: joinNlChars ls := by
  cases ls with
  | nil => exact absurd rfl h
  | cons x xs => rfl

/-- Splitting is a left inverse of joining for newline-free lines. -/
theorem splitNl_joinNl {ls : List (List Char)}
    (h : ∀ l ∈ ls, ∀ c ∈ l, ¬c = '\n') (hne : ls ≠ []) :
    splitNlChars (joinNlChars ls) = ls := by
  induction ls with
  | nil => exact absurd rfl hne
  | cons l rest ih =>
    cases rest with
    | nil =>
      exact splitNlChars_nlFree (h l (List.mem_cons_self l []))
    | cons r rs =>
      rw [joinNlChars_cons l (by simp)]
      rw [splitNlChars_append_nl _ (h l (List.mem_cons_self l (r :: rs)))]
      rw [ih (fun x hx c hc => h x (List.mem_cons_of_mem l hx) c hc) (by simp)]

/-- Joining distributes over append of nonempty parts, with one
separator in between. -/
theorem joinNl_append {xs ys : List (List Char)} (hx : xs ≠ []) (hy : ys ≠ []) :
    joinNlChars (xs ++ ys) = joinNlChars xs ++ '\n' :: joinNlChars ys := by
  induction xs with
  | nil => exact absurd rfl hx
  | cons x xs ih =>
    cases xs with
    | nil =>
      rw [List.singleton_append, joinNlChars_cons x hy]
      rfl
    | cons x2 xs2 =>
      rw [List.cons_append, joinNlChars_cons x (by simp),
        joinNlChars_cons x (by simp : x2 :: xs2 ≠ []), ih (by simp)]
      simp

/-- The join of nonempty lines is nonempty. -/
theorem joinNl_ne_nil {ls : List (List Char)} (hne : ls ≠ [])
    (h : ∀ l ∈ ls, l ≠ []) : joinNlChars ls ≠ [] := by
  cases ls with
  | nil => exact absurd rfl hne
  | cons l rest =>
    cases rest with
    | nil => exact h l (List.mem_cons_self l [])
    | cons r rs =>
      rw [joinNlChars_cons l (by simp)]
      intro hcontra
      have := h l (List.mem_cons_self l (r :: rs))
      cases l with
      | nil => exact this rfl
      | cons a b => simp at hcontra

/-- A clean line is nonempty. -/
theorem cleanChars_ne_nil {l : List Char} (h : cleanChars l = true) : l ≠ [] := by
  cases l with
  | nil => simp [cleanChars] at h
  | cons a b => simp

/-- A clean line is newline-free. -/
theorem cleanChars_nlFree {l : List Char} (h : cleanChars l = true) :
    ∀ c ∈ l, ¬c = '\n' := by
  intro c hc hceq
  subst hceq
  cases l with
  | nil => simp at hc
  | cons a b =>
    simp only [cleanChars] at h
    rcases hl : (a :: b).getLast? with _ | z
    · simp [hl] at h
    · rw [List.head?_cons, hl] at h
      simp only [Bool.and_eq_true] at h
      have := h.2
      rw [Bool.not_eq_true'] at this
      have hmem := List.elem_eq_true_of_mem hc
      rw [List.contains] at this
      rw [this] at hmem
      exact Bool.false_ne_true hmem

/-- A clean line is not whitespace-only. -/
theorem cleanChars_not_ws {l : List Char} (h : cleanChars l = true) :
    l.all wsChar = false := by
  cases l with
  | nil => simp [cleanChars] at h
  | cons a b =>
    simp only [cleanChars] at h
    rcases hl : (a :: b).getLast? with _ | z
    · simp [hl] at h
    · rw [List.head?_cons, hl] at h
      simp only [Bool.and_eq_true] at h
      have ha := h.1.1
      rw [Bool.not_eq_true'] at ha
      simp [List.all_cons, ha]

/-- A clean line starts with a non-whitespace character. -/
theorem cleanChars_head {l : List Char} (h : cleanChars l = true) :
    ∃ a t, l = a :: t ∧ wsChar a = false := by
  cases l with
  | nil => simp [cleanChars] at h
  | cons a b =>
    refine ⟨a, b, rfl, ?_⟩
    simp only [cleanChars] at h
    rcases hl : (a :: b).getLast? with _ | z
    · simp [hl] at h
    · rw [List.head?_cons, hl] at h
      simp only [Bool.and_eq_true] at h
      have := h.1.1
      rwa [Bool.not_eq_true'] at this

/-- A clean line ends with a non-whitespace character. -/
theorem cleanChars_last {l : List Char} (h : cleanChars l = true) :
    ∃ z, l.getLast? = some z ∧ wsChar z = false := by
  cases l with
  | nil => simp [cleanChars] at h
  | cons a b =>
    simp only [cleanChars] at h
    rcases hl : (a :: b).getLast? with _ | z
    · simp [hl] at h
    · rw [List.head?_cons, hl] at h
      simp only [Bool.and_eq_true] at h
      refine ⟨z, rfl, ?_⟩
      have := h.1.2
      rwa [Bool.not_eq_true'] at this

/-- `dropInteriorWsTail` passes over non-whitespace lines. -/
theorem dropInteriorWsTail_append {xs r : List (List Char)}
    (h : ∀ x ∈ xs, x.all wsChar = false) :
    dropInteriorWsTail (xs ++ r) = xs ++ dropInteriorWsTail r := by
  induction xs with
  | nil => rfl
  | cons x xs ih =>
    have hx : x.all wsChar = false := h x (List.mem_cons_self x xs)
    cases hxr : xs ++ r with
    | nil =>
      have hxs : xs = [] := by
        cases xs with
        | nil => rfl
        | cons a b => simp at hxr
      have hr : r = [] := by
        rw [hxs] at hxr
        simpa using hxr
      subst hxs
      subst hr
      rfl
    | cons y ys =>
      have : dropInteriorWsTail (x :: (xs ++ r)) =
          if x.all wsChar then dropInteriorWsTail (xs ++ r)
          else x :: dropInteriorWsTail (xs ++ r) := by
        rw [hxr]
        rfl
      rw [List.cons_append, this, hx]
      simp only [Bool.false_eq_true, if_false]
      rw [ih (fun a ha => h a (List.mem_cons_of_mem x ha))]
      rfl

/-- `dropInteriorWsTail` drops a whitespace-only run that is followed
by something. -/
theorem dropInteriorWsTail_ws_append {b r : List (List Char)}
    (hb : ∀ x ∈ b, x.all wsChar = true) (hr : r ≠ []) :
    dropInteriorWsTail (b ++ r) = dropInteriorWsTail r := by
  induction b with
  | nil => rfl
  | cons x b ih =>
    have hx : x.all wsChar = true := hb x (List.mem_cons_self x b)
    cases hbr : b ++ r with
    | nil =>
      rcases List.append_eq_nil.mp hbr with ⟨_, hr2⟩
      exact absurd hr2 hr
    | cons y ys =>
      have : dropInteriorWsTail (x :: (b ++ r)) =
          if x.all wsChar then dropInteriorWsTail (b ++ r)
          else x :: dropInteriorWsTail (b ++ r) := by
        rw [hbr]
        rfl
      rw [List.cons_append, this, hx]
      simp only [if_true]
      exact ih (fun a ha => hb a (List.mem_cons_of_mem x ha))

/-- `dropInteriorWs` keeps a nonempty non-whitespace prefix whole. -/
theorem dropInteriorWs_append {xs r : List (List Char)} (hxs : xs ≠ [])
    (h : ∀ x ∈ xs, x.all wsChar = false) (hr : r ≠ []) :
    dropInteriorWs (xs ++ r) = xs ++ dropInteriorWsTail r := by
  cases xs with
  | nil => exact absurd rfl hxs
  | cons x xs =>
    have hstep : dropInteriorWs (x :: (xs ++ r)) = x :: dropInteriorWsTail (xs ++ r) := by
      cases hxr : xs ++ r with
      | nil =>
        rcases List.append_eq_nil.mp hxr with ⟨_, hr2⟩
        exact absurd hr2 hr
      | cons y ys => rfl
    rw [List.cons_append, hstep,
      dropInteriorWsTail_append (fun a ha => h a (List.mem_cons_of_mem x ha))]
    rfl

/-- `dropWhile` keeps a list whose head fails the predicate. -/
theorem dropWhile_of_head {p : Char → Bool} {l : List Char}
    (h : ∃ a t, l = a :: t ∧ p a = false) : List.dropWhile p l = l := by
  rcases h with ⟨a, t, rfl, ha⟩
  simp [List.dropWhile_cons, ha]

/-- The head of a join whose first line is clean. -/
theorem joinNl_head {l : List Char} {ls : List (List Char)}
    (h : cleanChars l = true) :
    ∃ a t, joinNlChars (l :: ls) = a :: t ∧ wsChar a = false := by
  rcases cleanChars_head h with ⟨a, t2, rfl, ha⟩
  cases ls with
  | nil => exact ⟨a, t2, rfl, ha⟩
  | cons x xs =>
    rw [joinNlChars_cons _ (by simp)]
    exact ⟨a, t2 ++ '\n' :: joinNlChars (x :: xs), rfl, ha⟩

/-- The reversed join of clean lines starts with the non-whitespace
last character of the last line. -/
theorem joinNl_reverse_head {ks : List (List Char)} (hne : ks ≠ [])
    (h : ∀ l ∈ ks, cleanChars l = true) :
    ∃ z t, (joinNlChars ks).reverse = z :: t ∧ wsChar z = false := by
  rcases List.eq_nil_or_concat ks with rfl | ⟨init, lastl, rfl⟩
  · exact absurd rfl hne
  · have hlast : cleanChars lastl = true := h lastl (by simp)
    rcases cleanChars_last hlast with ⟨z, hz, hzw⟩
    have hlastrev : ∃ t2, lastl.reverse = z :: t2 := by
      have : lastl.reverse.head? = some z := by
        rw [List.head?_reverse]
        exact hz
      cases hrev : lastl.reverse with
      | nil => rw [hrev] at this; simp at this
      | cons y ys =>
        rw [hrev] at this
        simp only [List.head?_cons, Option.some.injEq] at this
        exact ⟨ys, by rw [this]⟩
    rcases hlastrev with ⟨t2, ht2⟩
    cases init with
    | nil =>
      refine ⟨z, t2, ?_, hzw⟩
      simpa [List.concat_eq_append, joinNlChars] using ht2
    | cons i0 is =>
      rw [List.concat_eq_append]
      rw [joinNl_append (by simp) (by simp : [lastl] ≠ [])]
      refine ⟨z, t2 ++ '\n' :: (joinNlChars (i0 :: is)).reverse, ?_, hzw⟩
      have hj : joinNlChars [lastl] = lastl := rfl
      rw [hj, List.reverse_append, List.reverse_cons, ht2]
      simp

/-- Trimming the join of clean lines followed by one separator and
trailing whitespace returns the join itself. -/
theorem jsTrim_join_clean {ks : List (List Char)} {w : List Char} (hne : ks ≠ [])
    (h : ∀ l ∈ ks, cleanChars l = true) (hw : ∀ c ∈ w, wsChar c = true) :
    jsTrimChars (joinNlChars ks ++ '\n' :: w) = joinNlChars ks := by
  rcases List.exists_cons_of_ne_nil hne with ⟨l0, ls0, rfl⟩
  have hfront : List.dropWhile wsChar (joinNlChars (l0 :: ls0) ++ '\n' :: w)
      = joinNlChars (l0 :: ls0) ++ '\n' :: w := by
    rcases @joinNl_head l0 ls0 (h l0 (List.mem_cons_self l0 ls0)) with ⟨a, t, heq, ha⟩
    apply dropWhile_of_head
    exact ⟨a, t ++ '\n' :: w, by rw [← List.cons_append, ← heq], ha⟩
  have hrev : (joinNlChars (l0 :: ls0) ++ '\n' :: w).reverse
      = w.reverse ++ '\n' :: (joinNlChars (l0 :: ls0)).reverse := by
    simp [List.reverse_append]
  have hwrev : List.dropWhile wsChar w.reverse = [] := by
    rw [List.dropWhile_eq_nil_iff]
    intro x hx
    exact hw x (List.mem_reverse.mp hx)
  have hback : List.dropWhile wsChar (w.reverse ++ '\n' :: (joinNlChars (l0 :: ls0)).reverse)
      = (joinNlChars (l0 :: ls0)).reverse := by
    rw [List.dropWhile_append, hwrev]
    simp only [List.isEmpty_nil, if_true]
    rw [List.dropWhile_cons]
    have : wsChar '\n' = true := by decide
    rw [this]
    simp only [if_true]
    apply dropWhile_of_head
    rcases joinNl_reverse_head (by simp) h with ⟨z, t, hzt, hzw⟩
    exact ⟨z, t, hzt, hzw⟩
  rw [jsTrimChars, hfront, hrev, hback, List.reverse_reverse]

/-- A string is its own character list. -/
theorem string_mk_data (s : String) : String.mk s.data = s := rfl

/-- Splitting is a left inverse of joining at the string level. -/
theorem splitLines_joinLines {ls : List String}
    (h : ∀ l ∈ ls, ∀ c ∈ l.data, ¬c = '\n') (hne : ls ≠ []) :
    splitLines (joinLines ls) = ls := by
  simp only [splitLines, joinLines]
  rw [splitNl_joinNl ?hnl ?hne2]
  case hnl =>
    intro l hl c hc
    rcases List.mem_map.mp hl with ⟨l2, hl2, rfl⟩
    exact h l2 hl2 c hc
  case hne2 => simpa using hne
  rw [List.map_map]
  have hid : (String.mk ∘ String.data) = id := by
    funext s
    exact string_mk_data s
  rw [hid, List.map_id]

/-- No variable pattern matches the empty line. -/
theorem matchesVarLine_empty (vars : List String) : matchesVarLine vars "" = false := by
  rw [matchesVarLine, List.any_eq_false]
  intro v _
  simp only [strStarts, decide_eq_true_eq]
  intro hpre
  have hdata : (v ++ "=").data = v.data ++ ['='] := rfl
  have := List.prefix_nil.mp hpre
  rw [hdata] at this
  simp at this

/-- Blanking the matched lines leaves an unmatched list unchanged. -/
theorem map_blank_unmatched (vars : List String) (keep : List String)
    (hk : ∀ l ∈ keep, matchesVarLine vars l = false) :
    keep.map (fun l => if matchesVarLine vars l then "" else l) = keep := by
  conv_rhs => rw [← List.map_id keep]
  apply List.map_congr_left
  intro l hl
  simp [hk l hl]

/-- Computation of the cleanup's content pipeline on a line list of the
form "kept lines, removed or blank lines, kept lines, removed or blank
lines, final empty line": the kept lines survive joined by single
newlines, everything else disappears. -/
theorem stripEnvVars_shape (vars : List String)
    (keep1 gone1 keep2 gone2 : List String)
    (h1 : keep1 ≠ [])
    (hke : keep2 = [] → gone2 = [])
    (hk1 : ∀ l ∈ keep1, cleanLine l = true ∧ matchesVarLine vars l = false)
    (hg1 : ∀ l ∈ gone1, l.data.contains '\n' = false ∧
      (matchesVarLine vars l = true ∨ l.data.all wsChar = true))
    (hk2 : ∀ l ∈ keep2, cleanLine l = true ∧ matchesVarLine vars l = false)
    (hg2 : ∀ l ∈ gone2, l.data.contains '\n' = false ∧
      (matchesVarLine vars l = true ∨ l.data.all wsChar = true)) :
    stripEnvVars vars (joinLines (keep1 ++ gone1 ++ keep2 ++ gone2 ++ [""]))
      = joinLines (keep1 ++ keep2) := by
  classical
  have hclean_nl : ∀ (l : String), cleanLine l = true → ∀ c ∈ l.data, ¬c = '\n' :=
    fun l hl => cleanChars_nlFree hl
  have hgone_nl : ∀ (l : String), l.data.contains '\n' = false →
      ∀ c ∈ l.data, ¬c = '\n' := by
    intro l hl c hc hceq
    subst hceq
    have := List.elem_eq_true_of_mem hc
    rw [List.contains] at hl
    rw [hl] at this
    exact Bool.false_ne_true this
  have hall_nl : ∀ l ∈ keep1 ++ gone1 ++ keep2 ++ gone2 ++ [""],
      ∀ c ∈ l.data, ¬c = '\n' := by
    intro l hl
    simp only [List.mem_append, List.mem_singleton] at hl
    rcases hl with ((((hl | hl) | hl) | hl) | hl)
    · exact hclean_nl l (hk1 l hl).1
    · exact hgone_nl l (hg1 l hl).1
    · exact hclean_nl l (hk2 l hl).1
    · exact hgone_nl l (hg2 l hl).1
    · subst hl; intro c hc; simp at hc
  have hall_ne : keep1 ++ gone1 ++ keep2 ++ gone2 ++ [""] ≠ [] := by
    simp [h1]
  -- step 1: the variable-line removal blanks exactly the matched lines
  have hremove : removeVarLines vars (joinLines (keep1 ++ gone1 ++ keep2 ++ gone2 ++ [""]))
      = joinLines (keep1 ++ gone1.map (fun l => if matchesVarLine vars l then "" else l)
          ++ keep2 ++ gone2.map (fun l => if matchesVarLine vars l then "" else l) ++ [""]) := by
    rw [removeVarLines, splitLines_joinLines hall_nl hall_ne]
    simp only [List.map_append]
    rw [map_blank_unmatched vars keep1 (fun l hl => (hk1 l hl).2),
      map_blank_unmatched vars keep2 (fun l hl => (hk2 l hl).2),
      map_blank_unmatched vars [""] (by simpa using matchesVarLine_empty vars)]
  -- the blanked removed lines are whitespace-only
  have hgone_ws : ∀ (gone : List String),
      (∀ l ∈ gone, l.data.contains '\n' = false ∧
        (matchesVarLine vars l = true ∨ l.data.all wsChar = true)) →
      ∀ x ∈ (gone.map (fun l => if matchesVarLine vars l then "" else l)).map String.data,
        x.all wsChar = true := by
    intro gone hg x hx
    rcases List.mem_map.mp hx with ⟨l2, hl2, rfl⟩
    rcases List.mem_map.mp hl2 with ⟨l3, hl3, rfl⟩
    by_cases hm : matchesVarLine vars l3 = true
    · simp only [hm, if_true]
      rfl
    · simp only [hm, if_false]
      rcases (hg l3 hl3).2 with hmm | hw
      · exact absurd hmm hm
      · exact hw
  have hgone1_ws := hgone_ws gone1 hg1
  have hgone2_ws := hgone_ws gone2 hg2
  have hkeep_clean : ∀ (keep : List String),
      (∀ l ∈ keep, cleanLine l = true ∧ matchesVarLine vars l = false) →
      ∀ x ∈ keep.map String.data, cleanChars x = true := by
    intro keep hk x hx
    rcases List.mem_map.mp hx with ⟨l2, hl2, rfl⟩
    exact (hk l2 hl2).1
  have hkeep_nws : ∀ (keep : List String),
      (∀ l ∈ keep, cleanLine l = true ∧ matchesVarLine vars l = false) →
      ∀ x ∈ keep.map String.data, x.all wsChar = false := by
    intro keep hk x hx
    exact cleanChars_not_ws (hkeep_clean keep hk x hx)
  -- step 2: the blank-line collapse drops the whitespace-only lines
  rw [stripEnvVars, hremove]
  have hmapped_nl : ∀ l ∈ keep1 ++ gone1.map (fun l => if matchesVarLine vars l then "" else l)
      ++ keep2 ++ gone2.map (fun l => if matchesVarLine vars l then "" else l) ++ [""],
      ∀ c ∈ l.data, ¬c = '\n' := by
    intro l hl
    simp only [List.mem_append, List.mem_singleton, List.mem_map] at hl
    rcases hl with ((((hl | ⟨l3, hl3, rfl⟩) | hl) | ⟨l3, hl3, rfl⟩) | hl)
    · exact hclean_nl l (hk1 l hl).1
    · intro c hc
      by_cases hm : matchesVarLine vars l3 = true
      · simp only [hm, if_true] at hc
        simp at hc
      · simp only [hm, if_false] at hc ⊢
        exact hgone_nl l3 (hg1 l3 hl3).1 c hc
    · exact hclean_nl l (hk2 l hl).1
    · intro c hc
      by_cases hm : matchesVarLine vars l3 = true
      · simp only [hm, if_true] at hc
        simp at hc
      · simp only [hm, if_false] at hc ⊢
        exact hgone_nl l3 (hg2 l3 hl3).1 c hc
    · subst hl; intro c hc; simp at hc
  rw [collapseNl,
    show (joinLines (keep1 ++ gone1.map (fun l => if matchesVarLine vars l then "" else l)
      ++ keep2 ++ gone2.map (fun l => if matchesVarLine vars l then "" else l) ++ [""])).data
      = joinNlChars ((keep1 ++ gone1.map (fun l => if matchesVarLine vars l then "" else l)
        ++ keep2 ++ gone2.map (fun l => if matchesVarLine vars l then "" else l) ++ [""]).map
          String.data) from rfl,
    splitNl_joinNl ?hnl2 ?hne3]
  case hnl2 =>
    intro x hx c hc
    rcases List.mem_map.mp hx with ⟨l2, hl2, rfl⟩
    exact hmapped_nl l2 hl2 c hc
  case hne3 => simp [h1]
  simp only [List.map_append, List.append_assoc]
  have hstep : dropInteriorWs ((keep1.map String.data)
      ++ ((gone1.map (fun l => if matchesVarLine vars l then "" else l)).map String.data
        ++ ((keep2.map String.data)
          ++ ((gone2.map (fun l => if matchesVarLine vars l then "" else l)).map String.data
            ++ ([""].map String.data)))))
      = (keep1.map String.data) ++ ((keep2.map String.data) ++ [("" : String).data]) := by
    rw [dropInteriorWs_append (by simpa using h1) (hkeep_nws keep1 hk1) (by simp)]
    rw [dropInteriorWsTail_ws_append hgone1_ws (by simp)]
    cases hkk : keep2 with
    | nil =>
      have hgg := hke hkk
      subst hgg
      simp only [List.map_nil, List.nil_append]
      rfl
    | cons k0 ks =>
      rw [← hkk]
      rw [dropInteriorWsTail_append
        (by rw [hkk] at hk2 ⊢; exact hkeep_nws (k0 :: ks) hk2)]
      rw [dropInteriorWsTail_ws_append hgone2_ws (by simp)]
      rfl
  rw [hstep]
  -- step 3: the trailing empty line is a trailing newline, removed by trim
  have hks_ne : keep1.map String.data ++ keep2.map String.data ≠ [] := by
    intro hc
    rcases List.append_eq_nil.mp hc with ⟨ha, _⟩
    exact h1 (List.map_eq_nil.mp ha)
  have hjoin2 : joinNlChars (keep1.map String.data ++ (keep2.map String.data
      ++ [("" : String).data]))
      = joinNlChars (keep1.map String.data ++ keep2.map String.data) ++ '\n' :: [] := by
    rw [← List.append_assoc]
    rw [joinNl_append hks_ne (by simp : [("" : String).data] ≠ [])]
    rfl
  rw [hjoin2]
  rw [show jsTrim (String.mk (joinNlChars (keep1.map String.data ++ keep2.map String.data)
      ++ '\n' :: []))
      = String.mk (jsTrimChars (joinNlChars (keep1.map String.data ++ keep2.map String.data)
        ++ '\n' :: [])) from rfl]
  rw [jsTrim_join_clean hks_ne ?hcl (by intro c hc; simp at hc)]
  case hcl =>
    intro l hl
    rcases List.mem_append.mp hl with hl | hl
    · exact hkeep_clean keep1 hk1 l hl
    · exact hkeep_clean keep2 hk2 l hl
  rw [joinLines]
  rw [List.map_append]

/-- Joining lines that include a nonempty one yields a nonempty
string. -/
theorem joinLines_ne_empty {ls : List String} (hne : ls ≠ [])
    (h : ∀ l ∈ ls, l.data ≠ []) : ¬(joinLines ls = "") := by
  intro hc
  have hd : joinNlChars (ls.map String.data) = [] := congrArg String.data hc
  refine joinNl_ne_nil (by simpa using hne) ?_ hd
  intro x hx
  rcases List.mem_map.mp hx with ⟨l2, hl2, rfl⟩
  exact h l2 hl2

/-- When stripping leaves something, the cleanup rewrites `.env.local`
with the stripped content plus a trailing newline. -/
theorem cleanupEnvironmentVariables_writes (svc : Service) (s : FS) (c : String)
    (hc : s.readFile ".env.local" = .ok c)
    (hne : ¬stripEnvVars (serviceVars svc) c = "") :
    cleanupEnvironmentVariables svc s
      = s.writeFile ".env.local" (stripEnvVars (serviceVars svc) c ++ "\n") := by
  have hpe : s.pathExists ".env.local" = true :=
    FS.pathExists_of_lookupFile (FS.lookupFile_of_readFile hc)
  simp [cleanupEnvironmentVariables, hpe, hc, hne]

/-- C4 counterexample: an `.env.local` holding the fixed webhook-secret
line plus one unrelated line; the Clerk environment cleanup leaves the
file bit-for-bit unchanged, so it still contains the webhook-secret
line, contradicting the claim at this input. -/
theorem claim_C4_cex :
    (cleanupEnvironmentVariables Service.clerk
        ⟨[(".env.local", some "CLERK_WEBHOOK_SECRET=whsec_test123\nOTHER_VAR=1\n")], [],
          none⟩).lookupFile ".env.local"
      = some (some "CLERK_WEBHOOK_SECRET=whsec_test123\nOTHER_VAR=1\n") ∧
      strContains "CLERK_WEBHOOK_SECRET=whsec_test123\nOTHER_VAR=1\n"
        "CLERK_WEBHOOK_SECRET=" = true := by
  constructor
  · decide
  · decide

/-- C4 (amended): the Clerk environment cleanup removes exactly the
lines of its six configuration variables; the webhook-secret line
(`CLERK_WEBHOOK_SECRET=...`) is not among them and is retained, as is
every other clean line that matches none of the six variables. -/
theorem claim_C4 (pre blk post : List String)
    (hpre : ∀ l ∈ pre, cleanLine l = true ∧ matchesVarLine clerkVars l = false)
    (hblk : ∀ l ∈ blk, l.data.contains '\n' = false ∧ matchesVarLine clerkVars l = true)
    (hpost : ∀ l ∈ post, cleanLine l = true ∧ matchesVarLine clerkVars l = false) :
    (cleanupEnvironmentVariables Service.clerk
        ⟨[(".env.local",
            some (joinLines (pre ++ ["CLERK_WEBHOOK_SECRET=whsec_test"] ++ blk
              ++ post ++ [""])))], [], none⟩).lookupFile ".env.local"
      = some (some (joinLines (pre ++ ["CLERK_WEBHOOK_SECRET=whsec_test"] ++ post)
          ++ "\n")) := by
  have hwline : cleanLine "CLERK_WEBHOOK_SECRET=whsec_test" = true ∧
      matchesVarLine clerkVars "CLERK_WEBHOOK_SECRET=whsec_test" = false := by
    constructor
    · decide
    · decide
  have hk1 : ∀ l ∈ pre ++ ["CLERK_WEBHOOK_SECRET=whsec_test"],
      cleanLine l = true ∧ matchesVarLine clerkVars l = false := by
    intro l hl
    rcases List.mem_append.mp hl with hl | hl
    · exact hpre l hl
    · rcases List.mem_singleton.mp hl with rfl
      exact hwline
  have hg1 : ∀ l ∈ blk, l.data.contains '\n' = false ∧
      (matchesVarLine clerkVars l = true ∨ l.data.all wsChar = true) := by
    intro l hl
    exact ⟨(hblk l hl).1, Or.inl (hblk l hl).2⟩
  have hshape := stripEnvVars_shape clerkVars
    (pre ++ ["CLERK_WEBHOOK_SECRET=whsec_test"]) blk post []
    (by simp) (fun _ => rfl) hk1 hg1 hpost (by simp)
  have hstrip : stripEnvVars (serviceVars Service.clerk)
      (joinLines (pre ++ ["CLERK_WEBHOOK_SECRET=whsec_test"] ++ blk ++ post ++ [""]))
      = joinLines (pre ++ ["CLERK_WEBHOOK_SECRET=whsec_test"] ++ post) := by
    have heq : pre ++ ["CLERK_WEBHOOK_SECRET=whsec_test"] ++ blk ++ post ++ [""]
        = (pre ++ ["CLERK_WEBHOOK_SECRET=whsec_test"]) ++ blk ++ post ++ [] ++ [""] := by
      simp
    have heq2 : pre ++ ["CLERK_WEBHOOK_SECRET=whsec_test"] ++ post
        = (pre ++ ["CLERK_WEBHOOK_SECRET=whsec_test"]) ++ post := by
      simp
    rw [heq, heq2, serviceVars]
    exact hshape
  have hne : ¬(joinLines (pre ++ ["CLERK_WEBHOOK_SECRET=whsec_test"] ++ post) = "") := by
    apply joinLines_ne_empty (by simp)
    intro l hl
    simp only [List.append_assoc, List.mem_append, List.mem_singleton] at hl
    rcases hl with hl | (hl | hl)
    · exact cleanChars_ne_nil (hpre l hl).1
    · subst hl; simp
    · exact cleanChars_ne_nil (hpost l hl).1
  have hcleanup := cleanupEnvironmentVariables_writes Service.clerk
    ⟨[(".env.local",
        some (joinLines (pre ++ ["CLERK_WEBHOOK_SECRET=whsec_test"] ++ blk
          ++ post ++ [""])))], [], none⟩
    (joinLines (pre ++ ["CLERK_WEBHOOK_SECRET=whsec_test"] ++ blk ++ post ++ [""]))
    rfl (by rw [hstrip]; exact hne)
  rw [hcleanup, hstrip]
  exact FS.lookupFile_writeFile_self _ ".env.local" _

/-- C4 witness: a concrete environment file around the webhook-secret
line, via the amended theorem. -/
theorem claim_C4_witness :
    (cleanupEnvironmentVariables Service.clerk
        ⟨[(".env.local",
            some (joinLines (["FOO=1"] ++ ["CLERK_WEBHOOK_SECRET=whsec_test"]
              ++ ["CLERK_SECRET_KEY=sk_abc"] ++ ["BAR=2"] ++ [""])))], [], none⟩).lookupFile
        ".env.local"
      = some (some (joinLines (["FOO=1"] ++ ["CLERK_WEBHOOK_SECRET=whsec_test"]
          ++ ["BAR=2"]) ++ "\n")) :=
  claim_C4 ["FOO=1"] ["CLERK_SECRET_KEY=sk_abc"] ["BAR=2"]
    (by intro l hl; rcases List.mem_singleton.mp hl with rfl; exact ⟨by decide, by decide⟩)
    (by intro l hl; rcases List.mem_singleton.mp hl with rfl; exact ⟨by decide, by decide⟩)
    (by intro l hl; rcases List.mem_singleton.mp hl with rfl; exact ⟨by decide, by decide⟩)

set_option maxHeartbeats 2000000 in
/-- C1 counterexample: on a minimal Next.js project, running the
Supabase install step and then the Supabase uninstall step leaves
`components/ConnectionTest.tsx` and `app/connection-test/page.tsx` (two
files the install step created) in place, and leaves a
`# Supabase Configuration` comment line (added by the install step) in
`.env.local`; so the uninstall does not remove exactly what the install
created. -/
theorem claim_C1_cex :
    (SupabaseSetup.setupSupabase ⟨false, false, false, ProjectType.nextjs⟩
        ⟨[(".env.local", some "USER_VAR=1\n")], [], some ⟨["next"]⟩⟩).map
      (fun s1 =>
        ((uninstallSupabase false s1).pathExists "components/ConnectionTest.tsx",
          (uninstallSupabase false s1).pathExists "app/connection-test/page.tsx",
          (uninstallSupabase false s1).lookupFile ".env.local"))
      = .ok (true, true, some (some "USER_VAR=1\n# Supabase Configuration\n")) := by
  rfl

set_option maxHeartbeats 2000000 in
/-- C1 (amended): for a minimal Next.js project whose `.env.local`
holds arbitrary clean non-Supabase lines, running the Supabase install
step and then the Supabase uninstall step removes exactly the four
paths of the uninstall list (`lib/supabase`, `types/supabase.ts`,
`supabase`, `components/Profile.tsx`) and strips the three `KEY=` lines
the install step appended; the other files the install step created
(`components/ConnectionTest.tsx`, `app/connection-test/page.tsx`, the
profiles API route) remain, the appended `# Supabase Configuration`
comment line remains in `.env.local`, and every pre-existing
environment line and unrelated file is retained. -/
theorem claim_C1 (e0 : List String) (u : String) (kd : Bool)
    (h0 : e0 ≠ [])
    (he : ∀ l ∈ e0, cleanLine l = true ∧ matchesVarLine supabaseVars l = false)
    (hm : strContains (joinLines e0 ++ "\n") "NEXT_PUBLIC_SUPABASE_URL" = false) :
    ∀ s1, SupabaseSetup.setupSupabase ⟨false, false, false, ProjectType.nextjs⟩
        ⟨[(".env.local", some (joinLines e0 ++ "\n")), ("README.md", some u)], [],
          some ⟨["next"]⟩⟩ = .ok s1 →
      (uninstallSupabase kd s1).pathExists "lib/supabase" = false ∧
        (uninstallSupabase kd s1).pathExists "types/supabase.ts" = false ∧
        (uninstallSupabase kd s1).pathExists "supabase" = false ∧
        (uninstallSupabase kd s1).pathExists "components/Profile.tsx" = false ∧
        (uninstallSupabase kd s1).lookupFile "components/ConnectionTest.tsx"
          = some (some connectionTestContent) ∧
        (uninstallSupabase kd s1).lookupFile "app/connection-test/page.tsx"
          = some (some demoPageContent) ∧
        (uninstallSupabase kd s1).lookupFile "pages/api/profiles/index.ts"
          = some (some supabaseApiRouteContent) ∧
        (uninstallSupabase kd s1).lookupFile "README.md" = some (some u) ∧
        (uninstallSupabase kd s1).lookupFile ".env.local"
          = some (some (joinLines (e0 ++ ["# Supabase Configuration"]) ++ "\n")) := by
  intro s1 h1
  -- the state after the install step
  have hsetup : SupabaseSetup.setupSupabase ⟨false, false, false, ProjectType.nextjs⟩
      ⟨[(".env.local", some (joinLines e0 ++ "\n")), ("README.md", some u)], [],
        some ⟨["next"]⟩⟩
      = .ok (FS.mk
        [("supabase/enhanced-setup.sql", some enhancedSqlContent),
         ("app/connection-test/page.tsx", some demoPageContent),
         ("components/ConnectionTest.tsx", some connectionTestContent),
         ("components/Profile.tsx", some profileComponentContent),
         ("pages/api/profiles/index.ts", some supabaseApiRouteContent),
         (".env.local", some (SupabaseSetup.updateEnvironmentVariablesContent Service.supabase
           (joinLines e0 ++ "\n"))),
         ("supabase/config.toml", some supabaseConfigContent),
         ("supabase/migrations/001_initial_schema.sql", some supabaseMigrationContent),
         ("types/supabase.ts", some supabaseTypesContent),
         ("lib/supabase/middleware.ts", some supabaseMiddlewareContent),
         ("lib/supabase/server.ts", some supabaseServerContent),
         ("lib/supabase/client.ts", some supabaseClientContent),
         ("README.md", some u)]
        ["supabase", "app/connection-test", "components", "pages/api/profiles",
         "supabase/migrations", "types", "lib/supabase"]
        (some ⟨["next"]⟩)) := rfl
  have hs1 : s1 = FS.mk
      [("supabase/enhanced-setup.sql", some enhancedSqlContent),
       ("app/connection-test/page.tsx", some demoPageContent),
       ("components/ConnectionTest.tsx", some connectionTestContent),
       ("components/Profile.tsx", some profileComponentContent),
       ("pages/api/profiles/index.ts", some supabaseApiRouteContent),
       (".env.local", some (SupabaseSetup.updateEnvironmentVariablesContent Service.supabase
         (joinLines e0 ++ "\n"))),
       ("supabase/config.toml", some supabaseConfigContent),
       ("supabase/migrations/001_initial_schema.sql", some supabaseMigrationContent),
       ("types/supabase.ts", some supabaseTypesContent),
       ("lib/supabase/middleware.ts", some supabaseMiddlewareContent),
       ("lib/supabase/server.ts", some supabaseServerContent),
       ("lib/supabase/client.ts", some supabaseClientContent),
       ("README.md", some u)]
      ["supabase", "app/connection-test", "components", "pages/api/profiles",
       "supabase/migrations", "types", "lib/supabase"]
      (some ⟨["next"]⟩) := by
    have := h1.symm.trans hsetup
    exact Except.ok.inj this
  subst hs1
  -- the state after the four removals of the uninstall step
  have hrem : supabaseRemovePaths.foldl
      (fun st p => if st.pathExists p then st.remove p else st)
      (FS.mk
        [("supabase/enhanced-setup.sql", some enhancedSqlContent),
         ("app/connection-test/page.tsx", some demoPageContent),
         ("components/ConnectionTest.tsx", some connectionTestContent),
         ("components/Profile.tsx", some profileComponentContent),
         ("pages/api/profiles/index.ts", some supabaseApiRouteContent),
         (".env.local", some (SupabaseSetup.updateEnvironmentVariablesContent Service.supabase
           (joinLines e0 ++ "\n"))),
         ("supabase/config.toml", some supabaseConfigContent),
         ("supabase/migrations/001_initial_schema.sql", some supabaseMigrationContent),
         ("types/supabase.ts", some supabaseTypesContent),
         ("lib/supabase/middleware.ts", some supabaseMiddlewareContent),
         ("lib/supabase/server.ts", some supabaseServerContent),
         ("lib/supabase/client.ts", some supabaseClientContent),
         ("README.md", some u)]
        ["supabase", "app/connection-test", "components", "pages/api/profiles",
         "supabase/migrations", "types", "lib/supabase"]
        (some ⟨["next"]⟩))
      = FS.mk
        [("app/connection-test/page.tsx", some demoPageContent),
         ("components/ConnectionTest.tsx", some connectionTestContent),
         ("pages/api/profiles/index.ts", some supabaseApiRouteContent),
         (".env.local", some (SupabaseSetup.updateEnvironmentVariablesContent Service.supabase
           (joinLines e0 ++ "\n"))),
         ("README.md", some u)]
        ["app/connection-test", "components", "pages/api/profiles", "types"]
        (some ⟨["next"]⟩) := rfl
  have huninst : uninstallSupabase kd (FS.mk
      [("supabase/enhanced-setup.sql", some enhancedSqlContent),
       ("app/connection-test/page.tsx", some demoPageContent),
       ("components/ConnectionTest.tsx", some connectionTestContent),
       ("components/Profile.tsx", some profileComponentContent),
       ("pages/api/profiles/index.ts", some supabaseApiRouteContent),
       (".env.local", some (SupabaseSetup.updateEnvironmentVariablesContent Service.supabase
         (joinLines e0 ++ "\n"))),
       ("supabase/config.toml", some supabaseConfigContent),
       ("supabase/migrations/001_initial_schema.sql", some supabaseMigrationContent),
       ("types/supabase.ts", some supabaseTypesContent),
       ("lib/supabase/middleware.ts", some supabaseMiddlewareContent),
       ("lib/supabase/server.ts", some supabaseServerContent),
       ("lib/supabase/client.ts", some supabaseClientContent),
       ("README.md", some u)]
      ["supabase", "app/connection-test", "components", "pages/api/profiles",
       "supabase/migrations", "types", "lib/supabase"]
      (some ⟨["next"]⟩))
      = cleanupEnvironmentVariables Service.supabase (FS.mk
        [("app/connection-test/page.tsx", some demoPageContent),
         ("components/ConnectionTest.tsx", some connectionTestContent),
         ("pages/api/profiles/index.ts", some supabaseApiRouteContent),
         (".env.local", some (SupabaseSetup.updateEnvironmentVariablesContent Service.supabase
           (joinLines e0 ++ "\n"))),
         ("README.md", some u)]
        ["app/connection-test", "components", "pages/api/profiles", "types"]
        (some ⟨["next"]⟩)) := by
    rw [uninstallSupabase, hrem]
  rw [huninst]
  -- the appended environment block, as lines
  have hupd : SupabaseSetup.updateEnvironmentVariablesContent Service.supabase
      (joinLines e0 ++ "\n") = (joinLines e0 ++ "\n") ++ supabaseEnvVars := by
    simp [SupabaseSetup.updateEnvironmentVariablesContent, hm]
  have hE : (joinLines e0 ++ "\n") ++ supabaseEnvVars
      = joinLines (e0 ++ [""] ++ ["# Supabase Configuration"]
          ++ ["NEXT_PUBLIC_SUPABASE_URL=your_supabase_project_url",
              "NEXT_PUBLIC_SUPABASE_ANON_KEY=your_supabase_anon_key",
              "SUPABASE_SERVICE_ROLE_KEY=your_supabase_service_role_key"]
          ++ [""]) := by
    have hd1 : ((joinLines e0 ++ "\n") ++ supabaseEnvVars).data
        = joinNlChars (e0.map String.data) ++ '\n' :: supabaseEnvVars.data := by
      rw [String.data_append_eq, String.data_append_eq]
      simp [joinLines]
    have hd2 : (joinLines (e0 ++ [""] ++ ["# Supabase Configuration"]
        ++ ["NEXT_PUBLIC_SUPABASE_URL=your_supabase_project_url",
            "NEXT_PUBLIC_SUPABASE_ANON_KEY=your_supabase_anon_key",
            "SUPABASE_SERVICE_ROLE_KEY=your_supabase_service_role_key"]
        ++ [""])).data
        = joinNlChars (e0.map String.data) ++ '\n' :: supabaseEnvVars.data := by
      show joinNlChars ((e0 ++ [""] ++ ["# Supabase Configuration"]
        ++ ["NEXT_PUBLIC_SUPABASE_URL=your_supabase_project_url",
            "NEXT_PUBLIC_SUPABASE_ANON_KEY=your_supabase_anon_key",
            "SUPABASE_SERVICE_ROLE_KEY=your_supabase_service_role_key"]
        ++ [""]).map String.data) = _
      rw [show (e0 ++ [""] ++ ["# Supabase Configuration"]
        ++ ["NEXT_PUBLIC_SUPABASE_URL=your_supabase_project_url",
            "NEXT_PUBLIC_SUPABASE_ANON_KEY=your_supabase_anon_key",
            "SUPABASE_SERVICE_ROLE_KEY=your_supabase_service_role_key"]
        ++ [""])
        = e0 ++ (["", "# Supabase Configuration",
            "NEXT_PUBLIC_SUPABASE_URL=your_supabase_project_url",
            "NEXT_PUBLIC_SUPABASE_ANON_KEY=your_supabase_anon_key",
            "SUPABASE_SERVICE_ROLE_KEY=your_supabase_service_role_key", ""]) by simp]
      rw [List.map_append]
      rw [joinNl_append (by simpa using h0) (by simp)]
      have hcc : joinNlChars ((["", "# Supabase Configuration",
          "NEXT_PUBLIC_SUPABASE_URL=your_supabase_project_url",
          "NEXT_PUBLIC_SUPABASE_ANON_KEY=your_supabase_anon_key",
          "SUPABASE_SERVICE_ROLE_KEY=your_supabase_service_role_key",
          ""] : List String).map String.data) = supabaseEnvVars.data := by decide
      rw [hcc]
    have hmkd := congrArg String.mk (hd1.trans hd2.symm)
    rwa [string_mk_data, string_mk_data] at hmkd
  have hEc : SupabaseSetup.updateEnvironmentVariablesContent Service.supabase
      (joinLines e0 ++ "\n")
      = joinLines (e0 ++ [""] ++ ["# Supabase Configuration"]
          ++ ["NEXT_PUBLIC_SUPABASE_URL=your_supabase_project_url",
              "NEXT_PUBLIC_SUPABASE_ANON_KEY=your_supabase_anon_key",
              "SUPABASE_SERVICE_ROLE_KEY=your_supabase_service_role_key"]
          ++ [""]) := hupd.trans hE
  -- stripping the variables leaves the user lines and the comment
  have hstrip : stripEnvVars (serviceVars Service.supabase)
      (SupabaseSetup.updateEnvironmentVariablesContent Service.supabase (joinLines e0 ++ "\n"))
      = joinLines (e0 ++ ["# Supabase Configuration"]) := by
    rw [hEc, serviceVars]
    exact stripEnvVars_shape supabaseVars e0 [""] ["# Supabase Configuration"]
      ["NEXT_PUBLIC_SUPABASE_URL=your_supabase_project_url",
       "NEXT_PUBLIC_SUPABASE_ANON_KEY=your_supabase_anon_key",
       "SUPABASE_SERVICE_ROLE_KEY=your_supabase_service_role_key"]
      h0 (by intro hcontra; simp at hcontra) he
      (by intro l hl; rcases List.mem_singleton.mp hl with rfl; exact ⟨rfl, Or.inr rfl⟩)
      (by intro l hl; rcases List.mem_singleton.mp hl with rfl; exact ⟨by decide, by decide⟩)
      (by
        intro l hl
        simp only [List.mem_cons, List.not_mem_nil, or_false] at hl
        rcases hl with rfl | rfl | rfl
        · exact ⟨by decide, Or.inl (by decide)⟩
        · exact ⟨by decide, Or.inl (by decide)⟩
        · exact ⟨by decide, Or.inl (by decide)⟩)
  have hne2 : ¬(joinLines (e0 ++ ["# Supabase Configuration"]) = "") := by
    apply joinLines_ne_empty (by simp)
    intro l hl
    rcases List.mem_append.mp hl with hl | hl
    · exact cleanChars_ne_nil (he l hl).1
    · rcases List.mem_singleton.mp hl with rfl
      simp
  have hfinal := cleanupEnvironmentVariables_writes Service.supabase
    (FS.mk
      [("app/connection-test/page.tsx", some demoPageContent),
       ("components/ConnectionTest.tsx", some connectionTestContent),
       ("pages/api/profiles/index.ts", some supabaseApiRouteContent),
       (".env.local", some (SupabaseSetup.updateEnvironmentVariablesContent Service.supabase
         (joinLines e0 ++ "\n"))),
       ("README.md", some u)]
      ["app/connection-test", "components", "pages/api/profiles", "types"]
      (some ⟨["next"]⟩))
    (SupabaseSetup.updateEnvironmentVariablesContent Service.supabase (joinLines e0 ++ "\n"))
    rfl (by rw [hstrip]; exact hne2)
  rw [hfinal]
  refine ⟨?_, ?_, ?_, ?_, ?_, ?_, ?_, ?_, ?_⟩
  · rw [FS.pathExists_writeFile_ne _ _ (by decide) (by decide)]
    rfl
  · rw [FS.pathExists_writeFile_ne _ _ (by decide) (by decide)]
    rfl
  · rw [FS.pathExists_writeFile_ne _ _ (by decide) (by decide)]
    rfl
  · rw [FS.pathExists_writeFile_ne _ _ (by decide) (by decide)]
    rfl
  · rw [FS.lookupFile_writeFile_ne _ _ (by decide)]
    rfl
  · rw [FS.lookupFile_writeFile_ne _ _ (by decide)]
    rfl
  · rw [FS.lookupFile_writeFile_ne _ _ (by decide)]
    rfl
  · rw [FS.lookupFile_writeFile_ne _ _ (by decide)]
    rfl
  · rw [FS.lookupFile_writeFile_self, hstrip]

set_option maxHeartbeats 2000000 in
/-- C1 witness: the amended install-then-uninstall behaviour at a
concrete minimal project, via the theorem. -/
theorem claim_C1_witness :
    SupabaseSetup.setupSupabase ⟨false, false, false, ProjectType.nextjs⟩
        ⟨[(".env.local", some (joinLines ["USER_VAR=1"] ++ "\n")),
          ("README.md", some "readme")], [], some ⟨["next"]⟩⟩ = .ok c1WitnessState ∧
      (uninstallSupabase false c1WitnessState).pathExists "lib/supabase" = false ∧
      (uninstallSupabase false c1WitnessState).lookupFile "components/ConnectionTest.tsx"
        = some (some connectionTestContent) ∧
      (uninstallSupabase false c1WitnessState).lookupFile ".env.local"
        = some (some (joinLines (["USER_VAR=1"] ++ ["# Supabase Configuration"]) ++ "\n")) := by
  have happ := claim_C1 ["USER_VAR=1"] "readme" false (by simp)
    (by intro l hl; rcases List.mem_singleton.mp hl with rfl; exact ⟨by decide, by decide⟩)
    (by decide)
    c1WitnessState rfl
  exact ⟨rfl, happ.1, happ.2.2.2.2.1, happ.2.2.2.2.2.2.2.2⟩

/-- Splitting a successful `Except` bind into its two successful
stages. -/
theorem except_bind_ok {α β : Type} {x : Except Unit α} {f : α → Except Unit β} {b : β}
    (h : x >>= f = .ok b) : ∃ a, x = .ok a ∧ f a = .ok b := by
  cases x with
  | error e => simp [Bind.bind, Except.bind] at h
  | ok a => exact ⟨a, rfl, by simpa [Bind.bind, Except.bind] using h⟩

/-- A stored readable file is read back. -/
theorem FS.readFile_of_lookupFile {s : FS} {p c : String}
    (h : s.lookupFile p = some (some c)) : s.readFile p = .ok c := by
  simp [FS.readFile, h]

/-- A successful run of the Supabase `updateEnvironmentVariables` is a
single write to `.env.local`. -/
theorem supaUpdateEnv_ok {svc : Service} {s s' : FS}
    (h : SupabaseSetup.updateEnvironmentVariables svc s = .ok s') :
    ∃ c, s' = s.writeFile ".env.local" c := by
  simp only [SupabaseSetup.updateEnvironmentVariables, Bind.bind, Except.bind] at h
  cases hpe : s.pathExists ".env.local" with
  | false =>
    rw [hpe] at h
    simp only [Bool.false_eq_true, ite_false, pure, Except.pure] at h
    exact ⟨_, (Except.ok.inj h).symm⟩
  | true =>
    rw [hpe] at h
    simp only [ite_true] at h
    cases hr : s.readFile ".env.local" with
    | error e => rw [hr] at h; exact absurd h (by simp [Except.bind])
    | ok c =>
      rw [hr] at h
      simp only [Except.bind, pure, Except.pure] at h
      exact ⟨_, (Except.ok.inj h).symm⟩

/-- A successful run of the Clerk `updateEnvironmentVariables` is a
single write to `.env.local`. -/
theorem clerkUpdateEnv_ok {svc : Service} {s s' : FS}
    (h : ClerkSetup.updateEnvironmentVariables svc s = .ok s') :
    ∃ c, s' = s.writeFile ".env.local" c := by
  simp only [ClerkSetup.updateEnvironmentVariables, Bind.bind, Except.bind] at h
  cases hpe : s.pathExists ".env.local" with
  | false =>
    rw [hpe] at h
    simp only [Bool.false_eq_true, ite_false, pure, Except.pure] at h
    exact ⟨_, (Except.ok.inj h).symm⟩
  | true =>
    rw [hpe] at h
    simp only [ite_true] at h
    cases hr : s.readFile ".env.local" with
    | error e => rw [hr] at h; exact absurd h (by simp [Except.bind])
    | ok c =>
      rw [hr] at h
      simp only [Except.bind, pure, Except.pure] at h
      exact ⟨_, (Except.ok.inj h).symm⟩

/-- What a successful Supabase setup guarantees: the client module is in
place with its template content, the manifest is untouched, and the
`lib/clerk.ts` probe point is untouched. -/
theorem setupSupabase_facts {cfg : ProjectSetup} {s s' : FS}
    (h : SupabaseSetup.setupSupabase cfg s = .ok s') :
    s'.lookupFile "lib/supabase/client.ts" = some (some supabaseClientContent) ∧
      s'.pkg = s.pkg ∧
      s'.lookupFile "lib/clerk.ts" = s.lookupFile "lib/clerk.ts" ∧
      s'.pathExists "lib/clerk.ts" = s.pathExists "lib/clerk.ts" := by
  simp only [SupabaseSetup.setupSupabase, SupabaseSetup.createSupabaseClient,
    SupabaseSetup.createSupabaseServer, SupabaseSetup.createSupabaseMiddleware,
    SupabaseSetup.createSupabaseTypes, SupabaseSetup.createInitialMigration,
    SupabaseSetup.createSupabaseConfig] at h
  obtain ⟨sE, hu, hrest⟩ := except_bind_ok h
  obtain ⟨c, hc⟩ := supaUpdateEnv_ok hu
  simp only [pure, Except.pure] at hrest
  have hs' := Except.ok.inj hrest
  subst hc
  subst hs'
  by_cases hpt : cfg.projectType = ProjectType.nextjsApp
  · simp only [SupabaseSetup.createSupabaseExamples, SupabaseSetup.createEnhancedSqlSetup,
      hpt, eq_self_iff_true, ite_true]
    refine ⟨?_, ?_, ?_, ?_⟩
    · simp [FS.lookupFile_writeFile_ne, FS.lookupFile_ensureDir, FS.lookupFile_writeFile_self]
    · simp [FS.pkg_writeFile, FS.pkg_ensureDir]
    · simp [FS.lookupFile_writeFile_ne, FS.lookupFile_ensureDir]
    · repeat
        first
          | rw [FS.pathExists_writeFile_ne _ _ (by decide) (by decide)]
          | rw [FS.pathExists_ensureDir_ne _ (by decide) (by decide)]
  · simp only [SupabaseSetup.createSupabaseExamples, SupabaseSetup.createEnhancedSqlSetup,
      hpt, ite_false]
    refine ⟨?_, ?_, ?_, ?_⟩
    · simp [FS.lookupFile_writeFile_ne, FS.lookupFile_ensureDir, FS.lookupFile_writeFile_self]
    · simp [FS.pkg_writeFile, FS.pkg_ensureDir]
    · simp [FS.lookupFile_writeFile_ne, FS.lookupFile_ensureDir]
    · repeat
        first
          | rw [FS.pathExists_writeFile_ne _ _ (by decide) (by decide)]
          | rw [FS.pathExists_ensureDir_ne _ (by decide) (by decide)]

/-- `createClerkProvider` only ever touches the layout files. -/
theorem clerkProvider_lookup (pt : ProjectType) (s : FS) (q : String)
    (h1 : ¬q = "app/layout.tsx") (h2 : ¬q = "pages/_app.tsx") :
    (ClerkSetup.createClerkProvider pt s).lookupFile q = s.lookupFile q := by
  unfold ClerkSetup.createClerkProvider
  by_cases hpt : pt = ProjectType.nextjsApp
  · rw [if_pos hpt]
    by_cases hl : s.pathExists "app/layout.tsx" = true
    · rw [if_pos hl]
      unfold ClerkSetup.updateExistingLayout
      cases hr : s.readFile "app/layout.tsx" with
      | error e => simp only [hr]
      | ok content =>
        simp only [hr]
        by_cases hcp : (strContains content "ClerkProvider" ||
            strContains content "ClerkProviderWrapper") = true
        · rw [if_pos hcp]
        · rw [if_neg hcp]
          exact FS.lookupFile_writeFile_ne s _ h1
    · rw [if_neg hl]
      exact FS.lookupFile_writeFile_ne s _ h1
  · rw [if_neg hpt]
    by_cases hl : s.pathExists "pages/_app.tsx" = true
    · rw [if_pos hl]
      unfold ClerkSetup.updateExistingPagesApp
      cases hr : s.readFile "pages/_app.tsx" with
      | error e => simp only [hr]
      | ok content =>
        simp only [hr]
        by_cases hcp : (strContains content "ClerkProvider" ||
            strContains content "ClerkProviderWrapper") = true
        · rw [if_pos hcp]
        · rw [if_neg hcp]
          exact FS.lookupFile_writeFile_ne s _ h2
    · rw [if_neg hl]
      exact FS.lookupFile_writeFile_ne s _ h2

/-- `createClerkProvider` keeps the manifest. -/
theorem clerkProvider_pkg (pt : ProjectType) (s : FS) :
    (ClerkSetup.createClerkProvider pt s).pkg = s.pkg := by
  unfold ClerkSetup.createClerkProvider
  by_cases hpt : pt = ProjectType.nextjsApp
  · rw [if_pos hpt]
    by_cases hl : s.pathExists "app/layout.tsx" = true
    · rw [if_pos hl]
      unfold ClerkSetup.updateExistingLayout
      cases hr : s.readFile "app/layout.tsx" with
      | error e => simp only [hr]
      | ok content =>
        simp only [hr]
        by_cases hcp : (strContains content "ClerkProvider" ||
            strContains content "ClerkProviderWrapper") = true
        · rw [if_pos hcp]
        · rw [if_neg hcp]; rfl
    · rw [if_neg hl]; rfl
  · rw [if_neg hpt]
    by_cases hl : s.pathExists "pages/_app.tsx" = true
    · rw [if_pos hl]
      unfold ClerkSetup.updateExistingPagesApp
      cases hr : s.readFile "pages/_app.tsx" with
      | error e => simp only [hr]
      | ok content =>
        simp only [hr]
        by_cases hcp : (strContains content "ClerkProvider" ||
            strContains content "ClerkProviderWrapper") = true
        · rw [if_pos hcp]
        · rw [if_neg hcp]; rfl
    · rw [if_neg hl]; rfl

/-- `createClerkProvider` does not disturb the `lib/clerk.ts` probe
point. -/
theorem clerkProvider_pathExists_clerkts (pt : ProjectType) (s : FS) :
    (ClerkSetup.createClerkProvider pt s).pathExists "lib/clerk.ts" =
      s.pathExists "lib/clerk.ts" := by
  unfold ClerkSetup.createClerkProvider
  by_cases hpt : pt = ProjectType.nextjsApp
  · rw [if_pos hpt]
    by_cases hl : s.pathExists "app/layout.tsx" = true
    · rw [if_pos hl]
      unfold ClerkSetup.updateExistingLayout
      cases hr : s.readFile "app/layout.tsx" with
      | error e => simp only [hr]
      | ok content =>
        simp only [hr]
        by_cases hcp : (strContains content "ClerkProvider" ||
            strContains content "ClerkProviderWrapper") = true
        · rw [if_pos hcp]
        · rw [if_neg hcp]
          exact FS.pathExists_writeFile_ne s _ (by decide) (by decide)
    · rw [if_neg hl]
      exact FS.pathExists_writeFile_ne s _ (by decide) (by decide)
  · rw [if_neg hpt]
    by_cases hl : s.pathExists "pages/_app.tsx" = true
    · rw [if_pos hl]
      unfold ClerkSetup.updateExistingPagesApp
      cases hr : s.readFile "pages/_app.tsx" with
      | error e => simp only [hr]
      | ok content =>
        simp only [hr]
        by_cases hcp : (strContains content "ClerkProvider" ||
            strContains content "ClerkProviderWrapper") = true
        · rw [if_pos hcp]
        · rw [if_neg hcp]
          exact FS.pathExists_writeFile_ne s _ (by decide) (by decide)
    · rw [if_neg hl]
      exact FS.pathExists_writeFile_ne s _ (by decide) (by decide)

/-- What a successful Clerk setup guarantees: the middleware is in place
with its template content, the manifest is untouched, the `lib/clerk.ts`
probe point is untouched, and the Supabase client module is kept. -/
theorem setupClerk_facts {cfg : ProjectSetup} {s s' : FS}
    (h : ClerkSetup.setupClerk cfg s = .ok s') :
    s'.lookupFile "middleware.ts" = some (some clerkMiddlewareContent) ∧
      s'.pkg = s.pkg ∧
      s'.lookupFile "lib/clerk.ts" = s.lookupFile "lib/clerk.ts" ∧
      s'.pathExists "lib/clerk.ts" = s.pathExists "lib/clerk.ts" ∧
      s'.lookupFile "lib/supabase/client.ts" = s.lookupFile "lib/supabase/client.ts" := by
  by_cases hpt : cfg.projectType = ProjectType.nextjsApp
  · simp only [ClerkSetup.setupClerk, ClerkSetup.createClerkConfig,
      ClerkSetup.createClerkMiddleware, ClerkSetup.createSignInPage,
      ClerkSetup.createSignUpPage, hpt, eq_self_iff_true, ite_true] at h
    obtain ⟨sE, hu, hrest⟩ := except_bind_ok h
    obtain ⟨c, hc⟩ := clerkUpdateEnv_ok hu
    simp only [pure, Except.pure] at hrest
    have hs' := Except.ok.inj hrest
    subst hc
    subst hs'
    refine ⟨?_, ?_, ?_, ?_, ?_⟩
    · simp [ClerkSetup.createClerkExamples, FS.lookupFile_writeFile_ne,
        FS.lookupFile_ensureDir, clerkProvider_lookup, FS.lookupFile_writeFile_self]
    · simp [ClerkSetup.createClerkExamples, FS.pkg_writeFile, FS.pkg_ensureDir,
        clerkProvider_pkg]
    · simp [ClerkSetup.createClerkExamples, FS.lookupFile_writeFile_ne,
        FS.lookupFile_ensureDir, clerkProvider_lookup]
    · simp only [ClerkSetup.createClerkExamples]
      repeat
        first
          | rw [clerkProvider_pathExists_clerkts]
          | rw [FS.pathExists_writeFile_ne _ _ (by decide) (by decide)]
          | rw [FS.pathExists_ensureDir_ne _ (by decide) (by decide)]
    · simp [ClerkSetup.createClerkExamples, FS.lookupFile_writeFile_ne,
        FS.lookupFile_ensureDir, clerkProvider_lookup]
  · simp only [ClerkSetup.setupClerk, ClerkSetup.createClerkConfig,
      ClerkSetup.createClerkMiddleware, ClerkSetup.createSignInPage,
      ClerkSetup.createSignUpPage, hpt, ite_false] at h
    obtain ⟨sE, hu, hrest⟩ := except_bind_ok h
    obtain ⟨c, hc⟩ := clerkUpdateEnv_ok hu
    simp only [pure, Except.pure] at hrest
    have hs' := Except.ok.inj hrest
    subst hc
    subst hs'
    refine ⟨?_, ?_, ?_, ?_, ?_⟩
    · simp [ClerkSetup.createClerkExamples, FS.lookupFile_writeFile_ne,
        FS.lookupFile_ensureDir, clerkProvider_lookup, FS.lookupFile_writeFile_self]
    · simp [ClerkSetup.createClerkExamples, FS.pkg_writeFile, FS.pkg_ensureDir,
        clerkProvider_pkg]
    · simp [ClerkSetup.createClerkExamples, FS.lookupFile_writeFile_ne,
        FS.lookupFile_ensureDir, clerkProvider_lookup]
    · simp only [ClerkSetup.createClerkExamples]
      repeat
        first
          | rw [clerkProvider_pathExists_clerkts]
          | rw [FS.pathExists_writeFile_ne _ _ (by decide) (by decide)]
          | rw [FS.pathExists_ensureDir_ne _ (by decide) (by decide)]
    · simp [ClerkSetup.createClerkExamples, FS.lookupFile_writeFile_ne,
        FS.lookupFile_ensureDir, clerkProvider_lookup]

/-- The webhook writer does not disturb the detection probe points. -/
theorem setupWebhooks_facts (iS iC : Bool) (s : FS) :
    (setupWebhooks iS iC s).lookupFile "lib/supabase/client.ts" =
        s.lookupFile "lib/supabase/client.ts" ∧
      (setupWebhooks iS iC s).lookupFile "middleware.ts" = s.lookupFile "middleware.ts" ∧
      (setupWebhooks iS iC s).pkg = s.pkg ∧
      (setupWebhooks iS iC s).lookupFile "lib/clerk.ts" = s.lookupFile "lib/clerk.ts" ∧
      (setupWebhooks iS iC s).pathExists "lib/clerk.ts" = s.pathExists "lib/clerk.ts" := by
  cases iS <;> cases iC <;>
    refine ⟨?_, ?_, ?_, ?_, ?_⟩ <;>
    first
      | (simp [setupWebhooks, FS.lookupFile_writeFile_ne, FS.lookupFile_ensureDir,
           FS.pkg_writeFile, FS.pkg_ensureDir]
         done)
      | (simp only [setupWebhooks, Bool.false_eq_true, ite_false, ite_true]
         repeat
           first
             | rw [FS.pathExists_writeFile_ne _ _ (by decide) (by decide)]
             | rw [FS.pathExists_ensureDir_ne _ (by decide) (by decide)])

/-- A project whose manifest parses and that holds the generated
Supabase client module is detected as a Supabase project. -/
theorem detectSupabase_after {s : FS} {pj : PackageJson} (hpkg : s.pkg = some pj)
    (hclient : s.lookupFile "lib/supabase/client.ts" = some (some supabaseClientContent)) :
    detectSupabase s = true := by
  have hpe : s.pathExists "lib/supabase/client.ts" = true :=
    FS.pathExists_of_lookupFile hclient
  have hrd : s.readFile "lib/supabase/client.ts" = .ok supabaseClientContent :=
    FS.readFile_of_lookupFile hclient
  have hm : (["@supabase/", "createClient", "supabase"].any
      (fun m => strContains supabaseClientContent m)) = true := by decide
  cases hdep : (pj.dependencies.contains "@supabase/supabase-js" ||
      pj.dependencies.contains "@supabase/ssr") with
  | true =>
    simp at hdep
    simp [detectSupabase, detectSupabaseT, FS.readPkgJson, hpkg, hdep,
      Bind.bind, Except.bind, pure, Except.pure]
  | false =>
    simp at hdep
    simp [detectSupabase, detectSupabaseT, FS.readPkgJson, hpkg, hdep,
      supabaseFiles, scanFiles, hpe, hrd, hm,
      Bind.bind, Except.bind, pure, Except.pure]

/-- A project whose manifest parses, that holds the generated Clerk
middleware, and whose `lib/clerk.ts` probe (if it exists at all) is a
readable file, is detected as a Clerk project. -/
theorem detectClerk_after {s : FS} {pj : PackageJson} (hpkg : s.pkg = some pj)
    (hmw : s.lookupFile "middleware.ts" = some (some clerkMiddlewareContent))
    (hprobe : s.pathExists "lib/clerk.ts" = true →
      ∃ c, s.lookupFile "lib/clerk.ts" = some (some c)) :
    detectClerk s = true := by
  have hpem : s.pathExists "middleware.ts" = true := FS.pathExists_of_lookupFile hmw
  have hrdm : s.readFile "middleware.ts" = .ok clerkMiddlewareContent :=
    FS.readFile_of_lookupFile hmw
  have hmm : strContains clerkMiddlewareContent "clerkMiddleware" = true := by decide
  have hscan : ∃ b, scanFiles s ["@clerk/", "ClerkProvider"] ["lib/clerk.ts"] = .ok b := by
    cases hpe : s.pathExists "lib/clerk.ts" with
    | false => exact ⟨false, by simp [scanFiles, hpe]⟩
    | true =>
      obtain ⟨c, hc⟩ := hprobe hpe
      have hrd : s.readFile "lib/clerk.ts" = .ok c := FS.readFile_of_lookupFile hc
      cases hmk : (["@clerk/", "ClerkProvider"].any (fun m => strContains c m)) with
      | true => exact ⟨true, by simp [scanFiles, hpe, hrd, hmk]⟩
      | false => exact ⟨false, by simp [scanFiles, hpe, hrd, hmk]⟩
  obtain ⟨b, hscan⟩ := hscan
  cases hdep : (pj.dependencies.contains "@clerk/nextjs" ||
      pj.dependencies.contains "@clerk/clerk-js") with
  | true =>
    simp at hdep
    simp [detectClerk, detectClerkT, FS.readPkgJson, hpkg, hdep,
      Bind.bind, Except.bind, pure, Except.pure]
  | false =>
    simp at hdep
    cases b with
    | true =>
      simp [detectClerk, detectClerkT, FS.readPkgJson, hpkg, hdep, hscan,
        Bind.bind, Except.bind, pure, Except.pure]
    | false =>
      simp [detectClerk, detectClerkT, FS.readPkgJson, hpkg, hdep, hscan,
        hpem, hrdm, hmm, Bind.bind, Except.bind, pure, Except.pure]

set_option maxHeartbeats 2000000 in
/-- C2: in a project whose manifest parses and whose `lib/clerk.ts`
probe point (if present at all) is a readable file, a first `install`
run that takes both setup paths (neither service detected, flags not
excluding either service) and completes successfully leaves the project
in a state where a second `install` run without the force flag returns
the state unchanged: the early both-services-detected return fires, so
every file already present is untouched. -/
theorem claim_C2 (o1 o2 : InstallOptions) (s0 s1 : FS) (pj : PackageJson)
    (hpkg : s0.pkg = some pj)
    (hprobe : s0.pathExists "lib/clerk.ts" = true →
      ∃ c, s0.lookupFile "lib/clerk.ts" = some (some c))
    (hS0 : detectSupabase s0 = false) (hC0 : detectClerk s0 = false)
    (hf1 : (o1.all || o1.supabase || !o1.clerk) = true)
    (hf2 : (o1.all || o1.clerk || !o1.supabase) = true)
    (hforce : o2.force = false)
    (h1 : installCmd o1 s0 = .ok s1) :
    installCmd o2 s1 = .ok s1 := by
  simp only [installCmd, detectExistingSetup, hS0, hC0, Bool.false_and, Bool.and_false,
    Bool.false_eq_true, ite_false, Bool.not_false, Bool.and_true, hf1, hf2, Bool.true_and,
    eq_self_iff_true, ite_true] at h1
  obtain ⟨u0, hu0, h1z⟩ := except_bind_ok h1
  obtain ⟨sA, hsA, h1a⟩ := except_bind_ok h1z
  obtain ⟨sB, hsB, h1b⟩ := except_bind_ok h1a
  simp only [pure, Except.pure] at h1b
  have hs1 := Except.ok.inj h1b
  obtain ⟨hA1, hA2, hA3, hA4⟩ := setupSupabase_facts hsA
  obtain ⟨hB1, hB2, hB3, hB4, hB5⟩ := setupClerk_facts hsB
  have hbClient : sB.lookupFile "lib/supabase/client.ts" = some (some supabaseClientContent) :=
    hB5.trans hA1
  have hbPkg : sB.pkg = some pj := (hB2.trans hA2).trans hpkg
  have hbClerkL : sB.lookupFile "lib/clerk.ts" = s0.lookupFile "lib/clerk.ts" := hB3.trans hA3
  have hbClerkP : sB.pathExists "lib/clerk.ts" = s0.pathExists "lib/clerk.ts" := hB4.trans hA4
  have hfacts : s1.lookupFile "lib/supabase/client.ts" = some (some supabaseClientContent) ∧
      s1.lookupFile "middleware.ts" = some (some clerkMiddlewareContent) ∧
      s1.pkg = some pj ∧
      s1.lookupFile "lib/clerk.ts" = s0.lookupFile "lib/clerk.ts" ∧
      s1.pathExists "lib/clerk.ts" = s0.pathExists "lib/clerk.ts" := by
    cases hwh : o1.webhooks with
    | false =>
      rw [hwh] at hs1
      simp only [Bool.false_eq_true, ite_false] at hs1
      subst hs1
      exact ⟨hbClient, hB1, hbPkg, hbClerkL, hbClerkP⟩
    | true =>
      rw [hwh] at hs1
      simp only [ite_true] at hs1
      obtain ⟨hW1, hW2, hW3, hW4, hW5⟩ := setupWebhooks_facts true true sB
      subst hs1
      exact ⟨hW1.trans hbClient, hW2.trans hB1, hW3.trans hbPkg, hW4.trans hbClerkL,
        hW5.trans hbClerkP⟩
  obtain ⟨hc1, hm1, hp1, hl1, he1⟩ := hfacts
  have hprobe1 : s1.pathExists "lib/clerk.ts" = true →
      ∃ c, s1.lookupFile "lib/clerk.ts" = some (some c) := by
    intro hpe
    rw [he1] at hpe
    obtain ⟨c, hcv⟩ := hprobe hpe
    exact ⟨c, by rw [hl1, hcv]⟩
  have hS1 : detectSupabase s1 = true := detectSupabase_after hp1 hc1
  have hC1 : detectClerk s1 = true := detectClerk_after hp1 hm1 hprobe1
  simp [installCmd, detectExistingSetup, hS1, hC1, hforce, pure, Except.pure]

set_option maxHeartbeats 4000000 in
/-- Concrete instance of the no-op second run: `install --all` on a
fresh Next.js project, then a plain `install` on the result. -/
theorem claim_C2_witness :
    installCmd c2Options1 c2Start = .ok c2Installed ∧
      installCmd c2Options2 c2Installed = .ok c2Installed := by
  refine ⟨rfl, ?_⟩
  exact claim_C2 c2Options1 c2Options2 c2Start c2Installed ⟨["next"]⟩ rfl
    (fun h => absurd h (by decide)) (by decide) (by decide) rfl rfl rfl rfl
